import Mathlib

/-!
# coreinit filesystem command dispatch (`coreinit_fs_cmd.cpp`)

A shallow embedding of the `FS…`/`FS…Async` operation pairs and of
`internal::readFileWithPosAsync`.

Everything the operations call outside this translation unit (prepare-sync,
prepare-async, the fatal-error handler, the shim request builders, the shim
prepare-error handler, submit, handle-async-result) is kept external: each call
is appended to a chronological call trace together with its arguments and the
value it returned, and the returned value is supplied by an environment that
may depend on the whole history.  The stores the operations perform into
`blockBody->cmdData` are logged in the same trace.

Pointers are addresses (`Nat`, null is `0`); `uint32_t` values are `Nat` with
wrap-around written out where the source multiplies.
-/

namespace coreinit

/-- Modelled from the spec: the `FSStatus` enumeration is declared in a header
that is not part of the sources.  The code names `OK` and `FatalError`; every
other status is carried by its numeric code. -/
inductive FSStatus where
  | OK
  | FatalError
  | other (code : Int)
  deriving DecidableEq, Repr

/-- Modelled from the spec: the `FSAStatus` enumeration is declared in a header
that is not part of the sources.  The code names `InvalidParam`, `InvalidPath`
and `InvalidBuffer`. -/
inductive FSAStatus where
  | InvalidParam
  | InvalidPath
  | InvalidBuffer
  | other (code : Int)
  deriving DecidableEq, Repr

/-- The two completion functions handed to `fsClientSubmitCommand`. -/
inductive FinishFn where
  | fsCmdBlockFinishCmdFn
  | fsCmdBlockFinishReadCmdFn
  deriving DecidableEq, Repr

/-- The members of `blockBody->cmdData` that the operations store into. -/
inductive CmdDataField where
  | getCwd_returnedPath
  | getCwd_bytes
  | getPosFile_pos
  | openFile_handle
  | readFile_chunkSize
  | readFile_bytesRemaining
  | readFile_bytesRead
  | readFile_readSize
  deriving DecidableEq, Repr

/-- The arguments of one call of a shim request builder
(`fsaShimPrepareRequest<Op>`), after the shim buffer. -/
inductive FSAShimRequest where
  | changeDir (clientHandle path : Nat)
  | closeFile (clientHandle handle : Nat)
  | getCwd (clientHandle : Nat)
  | getPosFile (clientHandle handle : Nat)
  | openFile (clientHandle path mode unk1 unk2 unk3 : Nat)
  | readFile (clientHandle buffer size count pos handle readFlags : Nat)
  | remove (clientHandle path : Nat)
  | setPosFile (clientHandle handle pos : Nat)
  deriving DecidableEq, Repr

/-- One externally visible step of an operation: a call of an external
function (with the value it returned, when it returns one) or a store into the
command block. -/
inductive Event where
  | prepareSync (client block asyncData : Nat)
  | prepareAsync (clientBody blockBody errorMask asyncData : Nat) (result : FSStatus)
  | handleFatalError (clientBody : Nat) (status : FSAStatus)
  | store (blockBody : Nat) (field : CmdDataField) (value : Nat)
  | shimPrepareRequest (blockBody : Nat) (request : FSAShimRequest) (error : Int)
  | handleShimPrepareError (clientBody : Nat) (error : Int) (result : FSStatus)
  | submitCommand (clientBody blockBody : Nat) (finish : FinishFn)
  | handleAsyncResult (client block : Nat) (result : FSStatus) (errorMask : Nat)
      (returned : FSStatus)
  deriving DecidableEq, Repr

/-- The chronological call trace (oldest event first). -/
abbrev Trace := List Event

/-- What `coreinit_fs_cmd.cpp` takes from elsewhere: three constants, the body
accessors, the client handle stored in a client body, and the return values of
the external functions (each as a function of the trace so far and of the
arguments of the call). -/
structure Env where
  FSMaxPathLength : Nat
  FSMaxBytesPerRequest : Nat
  ReadWithPos : Nat
  fsClientGetBody : Nat → Nat
  fsCmdBlockGetBody : Nat → Nat
  clientHandle : Nat → Nat
  prepareAsyncResult : Trace → Nat → Nat → Nat → Nat → FSStatus
  shimPrepareResult : Trace → Nat → FSAShimRequest → Int
  shimPrepareErrorResult : Trace → Nat → Int → FSStatus
  asyncResult : Trace → Nat → Nat → FSStatus → Nat → FSStatus

namespace internal

/-- `internal::fsCmdBlockPrepareSync(client, block, &asyncData)`. -/
def fsCmdBlockPrepareSync (client block asyncData : Nat) (t : Trace) : Trace :=
  t ++ [Event.prepareSync client block asyncData]

/-- `internal::fsCmdBlockPrepareAsync(clientBody, blockBody, errorMask, asyncData)`. -/
def fsCmdBlockPrepareAsync (env : Env) (clientBody blockBody errorMask asyncData : Nat)
    (t : Trace) : FSStatus × Trace :=
  let result := env.prepareAsyncResult t clientBody blockBody errorMask asyncData
  (result, t ++ [Event.prepareAsync clientBody blockBody errorMask asyncData result])

/-- `internal::fsClientHandleFatalError(clientBody, status)`. -/
def fsClientHandleFatalError (clientBody : Nat) (status : FSAStatus) (t : Trace) : Trace :=
  t ++ [Event.handleFatalError clientBody status]

/-- A store `blockBody->cmdData.<field> = value`. -/
def storeCmdData (blockBody : Nat) (field : CmdDataField) (value : Nat) (t : Trace) : Trace :=
  t ++ [Event.store blockBody field value]

/-- A call `fsaShimPrepareRequest<Op>(&blockBody->fsaShimBuffer, …)`. -/
def fsaShimPrepareRequest (env : Env) (blockBody : Nat) (request : FSAShimRequest)
    (t : Trace) : Int × Trace :=
  let error := env.shimPrepareResult t blockBody request
  (error, t ++ [Event.shimPrepareRequest blockBody request error])

/-- `internal::fsClientHandleShimPrepareError(clientBody, error)`. -/
def fsClientHandleShimPrepareError (env : Env) (clientBody : Nat) (error : Int)
    (t : Trace) : FSStatus × Trace :=
  let result := env.shimPrepareErrorResult t clientBody error
  (result, t ++ [Event.handleShimPrepareError clientBody error result])

/-- `internal::fsClientSubmitCommand(clientBody, blockBody, finish)`. -/
def fsClientSubmitCommand (clientBody blockBody : Nat) (finish : FinishFn) (t : Trace) : Trace :=
  t ++ [Event.submitCommand clientBody blockBody finish]

/-- `internal::fsClientHandleAsyncResult(client, block, result, errorMask)`. -/
def fsClientHandleAsyncResult (env : Env) (client block : Nat) (result : FSStatus)
    (errorMask : Nat) (t : Trace) : FSStatus × Trace :=
  let returned := env.asyncResult t client block result errorMask
  (returned, t ++ [Event.handleAsyncResult client block result errorMask returned])

/-- `internal::readFileWithPosAsync` (lines 506-558). -/
def readFileWithPosAsync (env : Env) (client block buffer size count pos handle readFlags
    errorMask asyncData : Nat) (t : Trace) : FSStatus × Trace :=
  let clientBody := env.fsClientGetBody client
  let blockBody := env.fsCmdBlockGetBody block
  let (result, t) := fsCmdBlockPrepareAsync env clientBody blockBody errorMask asyncData t
  if result ≠ FSStatus.OK then (result, t) else
  -- Ensure size * count is not > 32 bit.
  let bytes := (size * count) % 2 ^ 64
  if bytes > 0xFFFFFFFF then
    (FSStatus.FatalError, fsClientHandleFatalError clientBody FSAStatus.InvalidParam t)
  else
  let t := storeCmdData blockBody CmdDataField.readFile_chunkSize size t
  let t := storeCmdData blockBody CmdDataField.readFile_bytesRemaining
    ((size * count) % 2 ^ 32) t
  let t := storeCmdData blockBody CmdDataField.readFile_bytesRead 0 t
  -- We only read up to FSMaxBytesPerRequest per request.
  let readSize := if size > env.FSMaxBytesPerRequest then env.FSMaxBytesPerRequest else size
  let t := storeCmdData blockBody CmdDataField.readFile_readSize readSize t
  let (error, t) := fsaShimPrepareRequest env blockBody
    (FSAShimRequest.readFile (env.clientHandle clientBody) buffer readSize 1 pos handle
      readFlags) t
  if error ≠ 0 then fsClientHandleShimPrepareError env clientBody error t else
  (FSStatus.OK, fsClientSubmitCommand clientBody blockBody FinishFn.fsCmdBlockFinishReadCmdFn t)

end internal

open internal

/-- `FSChangeDirAsync` (lines 39-70). -/
def FSChangeDirAsync (env : Env) (client block path errorMask asyncData : Nat)
    (t : Trace) : FSStatus × Trace :=
  let clientBody := env.fsClientGetBody client
  let blockBody := env.fsCmdBlockGetBody block
  let (result, t) := fsCmdBlockPrepareAsync env clientBody blockBody errorMask asyncData t
  if result ≠ FSStatus.OK then (result, t) else
  if path = 0 then
    (FSStatus.FatalError, fsClientHandleFatalError clientBody FSAStatus.InvalidPath t)
  else
  let (error, t) := fsaShimPrepareRequest env blockBody
    (FSAShimRequest.changeDir (env.clientHandle clientBody) path) t
  if error ≠ 0 then fsClientHandleShimPrepareError env clientBody error t else
  (FSStatus.OK, fsClientSubmitCommand clientBody blockBody FinishFn.fsCmdBlockFinishCmdFn t)

/-- `FSChangeDir` (lines 27-37); `asyncData` is the address of the local
`FSAsyncData`. -/
def FSChangeDir (env : Env) (client block path errorMask : Nat) (asyncData : Nat)
    (t : Trace) : FSStatus × Trace :=
  let t := fsCmdBlockPrepareSync client block asyncData t
  let (result, t) := FSChangeDirAsync env client block path errorMask asyncData t
  fsClientHandleAsyncResult env client block result errorMask t

/-- `FSCloseFileAsync` (lines 86-112). -/
def FSCloseFileAsync (env : Env) (client block handle errorMask asyncData : Nat)
    (t : Trace) : FSStatus × Trace :=
  let clientBody := env.fsClientGetBody client
  let blockBody := env.fsCmdBlockGetBody block
  let (result, t) := fsCmdBlockPrepareAsync env clientBody blockBody errorMask asyncData t
  if result ≠ FSStatus.OK then (result, t) else
  let (error, t) := fsaShimPrepareRequest env blockBody
    (FSAShimRequest.closeFile (env.clientHandle clientBody) handle) t
  if error ≠ 0 then fsClientHandleShimPrepareError env clientBody error t else
  (FSStatus.OK, fsClientSubmitCommand clientBody blockBody FinishFn.fsCmdBlockFinishCmdFn t)

/-- `FSCloseFile` (lines 73-83). -/
def FSCloseFile (env : Env) (client block handle errorMask : Nat) (asyncData : Nat)
    (t : Trace) : FSStatus × Trace :=
  let t := fsCmdBlockPrepareSync client block asyncData t
  let (result, t) := FSCloseFileAsync env client block handle errorMask asyncData t
  fsClientHandleAsyncResult env client block result errorMask t

/-- `FSGetCwdAsync` (lines 130-169). -/
def FSGetCwdAsync (env : Env) (client block returnedPath bytes errorMask asyncData : Nat)
    (t : Trace) : FSStatus × Trace :=
  let clientBody := env.fsClientGetBody client
  let blockBody := env.fsCmdBlockGetBody block
  let (result, t) := fsCmdBlockPrepareAsync env clientBody blockBody errorMask asyncData t
  if result ≠ FSStatus.OK then (result, t) else
  if returnedPath = 0 then
    (FSStatus.FatalError, fsClientHandleFatalError clientBody FSAStatus.InvalidBuffer t)
  else
  if bytes < env.FSMaxPathLength then
    (FSStatus.FatalError, fsClientHandleFatalError clientBody FSAStatus.InvalidParam t)
  else
  let t := storeCmdData blockBody CmdDataField.getCwd_returnedPath returnedPath t
  let t := storeCmdData blockBody CmdDataField.getCwd_bytes bytes t
  let (error, t) := fsaShimPrepareRequest env blockBody
    (FSAShimRequest.getCwd (env.clientHandle clientBody)) t
  if error ≠ 0 then fsClientHandleShimPrepareError env clientBody error t else
  (FSStatus.OK, fsClientSubmitCommand clientBody blockBody FinishFn.fsCmdBlockFinishCmdFn t)

/-- `FSGetCwd` (lines 115-127). -/
def FSGetCwd (env : Env) (client block returnedPath bytes errorMask : Nat) (asyncData : Nat)
    (t : Trace) : FSStatus × Trace :=
  let t := fsCmdBlockPrepareSync client block asyncData t
  let (result, t) := FSGetCwdAsync env client block returnedPath bytes errorMask asyncData t
  fsClientHandleAsyncResult env client block result errorMask t

/-- `FSGetPosFileAsync` (lines 187-220). -/
def FSGetPosFileAsync (env : Env) (client block handle returnedFpos errorMask asyncData : Nat)
    (t : Trace) : FSStatus × Trace :=
  let clientBody := env.fsClientGetBody client
  let blockBody := env.fsCmdBlockGetBody block
  let (result, t) := fsCmdBlockPrepareAsync env clientBody blockBody errorMask asyncData t
  if result ≠ FSStatus.OK then (result, t) else
  if returnedFpos = 0 then
    (FSStatus.FatalError, fsClientHandleFatalError clientBody FSAStatus.InvalidBuffer t)
  else
  let t := storeCmdData blockBody CmdDataField.getPosFile_pos returnedFpos t
  let (error, t) := fsaShimPrepareRequest env blockBody
    (FSAShimRequest.getPosFile (env.clientHandle clientBody) handle) t
  if error ≠ 0 then fsClientHandleShimPrepareError env clientBody error t else
  (FSStatus.OK, fsClientSubmitCommand clientBody blockBody FinishFn.fsCmdBlockFinishCmdFn t)

/-- `FSGetPosFile` (lines 172-184). -/
def FSGetPosFile (env : Env) (client block handle returnedFpos errorMask : Nat)
    (asyncData : Nat) (t : Trace) : FSStatus × Trace :=
  let t := fsCmdBlockPrepareSync client block asyncData t
  let (result, t) := FSGetPosFileAsync env client block handle returnedFpos errorMask asyncData t
  fsClientHandleAsyncResult env client block result errorMask t

/-- `FSOpenFileExAsync` (lines 274-322). -/
def FSOpenFileExAsync (env : Env) (client block path mode unk1 unk2 unk3 fileHandle errorMask
    asyncData : Nat) (t : Trace) : FSStatus × Trace :=
  let clientBody := env.fsClientGetBody client
  let blockBody := env.fsCmdBlockGetBody block
  let (result, t) := fsCmdBlockPrepareAsync env clientBody blockBody errorMask asyncData t
  if result ≠ FSStatus.OK then (result, t) else
  if fileHandle = 0 then
    (FSStatus.FatalError, fsClientHandleFatalError clientBody FSAStatus.InvalidBuffer t)
  else
  if path = 0 then
    (FSStatus.FatalError, fsClientHandleFatalError clientBody FSAStatus.InvalidPath t)
  else
  if mode = 0 then
    (FSStatus.FatalError, fsClientHandleFatalError clientBody FSAStatus.InvalidParam t)
  else
  let t := storeCmdData blockBody CmdDataField.openFile_handle fileHandle t
  let (error, t) := fsaShimPrepareRequest env blockBody
    (FSAShimRequest.openFile (env.clientHandle clientBody) path mode unk1 unk2 unk3) t
  if error ≠ 0 then fsClientHandleShimPrepareError env clientBody error t else
  (FSStatus.OK, fsClientSubmitCommand clientBody blockBody FinishFn.fsCmdBlockFinishCmdFn t)

/-- `FSOpenFileEx` (lines 252-271). -/
def FSOpenFileEx (env : Env) (client block path mode unk1 unk2 unk3 fileHandle errorMask : Nat)
    (asyncData : Nat) (t : Trace) : FSStatus × Trace :=
  let t := fsCmdBlockPrepareSync client block asyncData t
  let (result, t) := FSOpenFileExAsync env client block path mode unk1 unk2 unk3 fileHandle
    errorMask asyncData t
  fsClientHandleAsyncResult env client block result errorMask t

/-- `FSOpenFile` (lines 223-234). -/
def FSOpenFile (env : Env) (client block path mode fileHandle errorMask : Nat)
    (asyncData : Nat) (t : Trace) : FSStatus × Trace :=
  FSOpenFileEx env client block path mode 0x660 0 0 fileHandle errorMask asyncData t

/-- `FSOpenFileAsync` (lines 237-249). -/
def FSOpenFileAsync (env : Env) (client block path mode fileHandle errorMask asyncData : Nat)
    (t : Trace) : FSStatus × Trace :=
  FSOpenFileExAsync env client block path mode 0x660 0 0 fileHandle errorMask asyncData t

/-- `~FSReadFlag::ReadWithPos` on the 32-bit flag type. -/
def notReadWithPos (env : Env) : Nat :=
  0xFFFFFFFF ^^^ (env.ReadWithPos % 2 ^ 32)

/-- `FSReadFileAsync` (lines 345-360). -/
def FSReadFileAsync (env : Env) (client block buffer size count handle readFlags errorMask
    asyncData : Nat) (t : Trace) : FSStatus × Trace :=
  readFileWithPosAsync env client block buffer size count
    0 handle
    (readFlags &&& notReadWithPos env)
    errorMask asyncData t

/-- `FSReadFile` (lines 325-342). -/
def FSReadFile (env : Env) (client block buffer size count handle readFlags errorMask : Nat)
    (asyncData : Nat) (t : Trace) : FSStatus × Trace :=
  let t := fsCmdBlockPrepareSync client block asyncData t
  let (result, t) := FSReadFileAsync env client block buffer size count handle
    readFlags errorMask asyncData t
  fsClientHandleAsyncResult env client block result errorMask t

/-- `FSReadFileWithPosAsync` (lines 385-401).  The parameter `pos` is not used
by the body: the source passes the literal `0` in the position argument. -/
def FSReadFileWithPosAsync (env : Env) (client block buffer size count pos handle readFlags
    errorMask asyncData : Nat) (t : Trace) : FSStatus × Trace :=
  let _ := pos
  readFileWithPosAsync env client block buffer size count
    0 handle
    (readFlags ||| env.ReadWithPos)
    errorMask asyncData t

/-- `FSReadFileWithPos` (lines 363-382).  The source passes `handle, pos` (in
this order) where `FSReadFileWithPosAsync` declares `pos, handle`. -/
def FSReadFileWithPos (env : Env) (client block buffer size count pos handle readFlags
    errorMask : Nat) (asyncData : Nat) (t : Trace) : FSStatus × Trace :=
  let t := fsCmdBlockPrepareSync client block asyncData t
  let (result, t) := FSReadFileWithPosAsync env client block buffer size count
    handle pos readFlags errorMask
    asyncData t
  fsClientHandleAsyncResult env client block result errorMask t

/-- `FSRemoveAsync` (lines 420-451). -/
def FSRemoveAsync (env : Env) (client block path errorMask asyncData : Nat)
    (t : Trace) : FSStatus × Trace :=
  let clientBody := env.fsClientGetBody client
  let blockBody := env.fsCmdBlockGetBody block
  let (result, t) := fsCmdBlockPrepareAsync env clientBody blockBody errorMask asyncData t
  if result ≠ FSStatus.OK then (result, t) else
  if path = 0 then
    (FSStatus.FatalError, fsClientHandleFatalError clientBody FSAStatus.InvalidPath t)
  else
  let (error, t) := fsaShimPrepareRequest env blockBody
    (FSAShimRequest.remove (env.clientHandle clientBody) path) t
  if error ≠ 0 then fsClientHandleShimPrepareError env clientBody error t else
  (FSStatus.OK, fsClientSubmitCommand clientBody blockBody FinishFn.fsCmdBlockFinishCmdFn t)

/-- `FSRemove` (lines 404-417). -/
def FSRemove (env : Env) (client block path errorMask : Nat) (asyncData : Nat)
    (t : Trace) : FSStatus × Trace :=
  let t := fsCmdBlockPrepareSync client block asyncData t
  let (result, t) := FSRemoveAsync env client block path errorMask asyncData t
  fsClientHandleAsyncResult env client block result errorMask t

/-- `FSSetPosFileAsync` (lines 472-500). -/
def FSSetPosFileAsync (env : Env) (client block handle pos errorMask asyncData : Nat)
    (t : Trace) : FSStatus × Trace :=
  let clientBody := env.fsClientGetBody client
  let blockBody := env.fsCmdBlockGetBody block
  let (result, t) := fsCmdBlockPrepareAsync env clientBody blockBody errorMask asyncData t
  if result ≠ FSStatus.OK then (result, t) else
  let (error, t) := fsaShimPrepareRequest env blockBody
    (FSAShimRequest.setPosFile (env.clientHandle clientBody) handle pos) t
  if error ≠ 0 then fsClientHandleShimPrepareError env clientBody error t else
  (FSStatus.OK, fsClientSubmitCommand clientBody blockBody FinishFn.fsCmdBlockFinishCmdFn t)

/-- `FSSetPosFile` (lines 454-469). -/
def FSSetPosFile (env : Env) (client block handle pos errorMask : Nat) (asyncData : Nat)
    (t : Trace) : FSStatus × Trace :=
  let t := fsCmdBlockPrepareSync client block asyncData t
  let (result, t) := FSSetPosFileAsync env client block handle pos errorMask asyncData t
  fsClientHandleAsyncResult env client block result errorMask t

/-- The events a call appended to the trace `t` it started from. -/
def newEvents (t : Trace) (r : FSStatus × Trace) : List Event :=
  r.2.drop t.length

/-- The synchronous form of an operation as the specification words it
(section 4.2): prepare-sync on the stack async-data, then the asynchronous form
`opAsync` with the error mask and that async-data, then handle-async-result on
its result.  `opAsync` is the asynchronous entry already applied to the client,
the block and the operation arguments. -/
def syncForm (env : Env) (opAsync : Nat → Nat → Trace → FSStatus × Trace)
    (client block errorMask asyncData : Nat) (t : Trace) : FSStatus × Trace :=
  let t := fsCmdBlockPrepareSync client block asyncData t
  let (result, t) := opAsync errorMask asyncData t
  fsClientHandleAsyncResult env client block result errorMask t

/-- An environment in which every external call succeeds: prepare-async
returns `OK`, the shim builders return `0`, handle-async-result returns the
status it is given.  Client handle `100`, bodies at the addresses of their
handles, `FSMaxBytesPerRequest = 0x10000`. -/
def stubEnv : Env where
  FSMaxPathLength := 0x27F
  FSMaxBytesPerRequest := 0x10000
  ReadWithPos := 1
  fsClientGetBody := fun client => client
  fsCmdBlockGetBody := fun block => block
  clientHandle := fun _ => 100
  prepareAsyncResult := fun _ _ _ _ _ => FSStatus.OK
  shimPrepareResult := fun _ _ _ => 0
  shimPrepareErrorResult := fun _ _ error => FSStatus.other error
  asyncResult := fun _ _ _ result _ => result

/-- The read flags of a shim read request, for a trace event that is one. -/
def readFlagsOf : Event → Option Nat
  | Event.shimPrepareRequest _ (FSAShimRequest.readFile _ _ _ _ _ _ readFlags) _ =>
      some readFlags
  | _ => none

/-- Whether a trace event is a call of a shim request builder. -/
def isShimPrepare : Event → Bool
  | Event.shimPrepareRequest _ _ _ => true
  | _ => false

/-- Whether a trace event is a call of `fsClientSubmitCommand`. -/
def isSubmit : Event → Bool
  | Event.submitCommand _ _ _ => true
  | _ => false

/-- Whether a trace event is a call of `fsClientHandleFatalError`. -/
def isFatal : Event → Bool
  | Event.handleFatalError _ _ => true
  | _ => false

/-- The outcome "rejected with `InvalidParam`": the fatal-error handler was
called with `InvalidParam`, the status is `FatalError`, and neither a shim
builder nor submit was called. -/
def rejectedInvalidParam (clientBody : Nat) (t : Trace) (r : FSStatus × Trace) : Prop :=
  Event.handleFatalError clientBody FSAStatus.InvalidParam ∈ newEvents t r ∧
  r.1 = FSStatus.FatalError ∧
  ∀ e ∈ newEvents t r, isShimPrepare e = false ∧ isSubmit e = false

/-- One call of an asynchronous operation: which entry, with its
operation-specific arguments (the client, the block, the error mask and the
async-data are common to all entries). -/
inductive AsyncCall where
  | changeDir (path : Nat)
  | closeFile (handle : Nat)
  | getCwd (returnedPath bytes : Nat)
  | getPosFile (handle returnedFpos : Nat)
  | openFileEx (path mode unk1 unk2 unk3 fileHandle : Nat)
  | readFile (buffer size count handle readFlags : Nat)
  | readFileWithPos (buffer size count pos handle readFlags : Nat)
  | remove (path : Nat)
  | setPosFile (handle pos : Nat)
  deriving DecidableEq, Repr

/-- Running an asynchronous call: dispatch to the entry it names. -/
def AsyncCall.run (env : Env) (client block : Nat) (call : AsyncCall)
    (errorMask asyncData : Nat) (t : Trace) : FSStatus × Trace :=
  match call with
  | AsyncCall.changeDir path => FSChangeDirAsync env client block path errorMask asyncData t
  | AsyncCall.closeFile handle => FSCloseFileAsync env client block handle errorMask asyncData t
  | AsyncCall.getCwd returnedPath bytes =>
      FSGetCwdAsync env client block returnedPath bytes errorMask asyncData t
  | AsyncCall.getPosFile handle returnedFpos =>
      FSGetPosFileAsync env client block handle returnedFpos errorMask asyncData t
  | AsyncCall.openFileEx path mode unk1 unk2 unk3 fileHandle =>
      FSOpenFileExAsync env client block path mode unk1 unk2 unk3 fileHandle errorMask
        asyncData t
  | AsyncCall.readFile buffer size count handle readFlags =>
      FSReadFileAsync env client block buffer size count handle readFlags errorMask asyncData t
  | AsyncCall.readFileWithPos buffer size count pos handle readFlags =>
      FSReadFileWithPosAsync env client block buffer size count pos handle readFlags errorMask
        asyncData t
  | AsyncCall.remove path => FSRemoveAsync env client block path errorMask asyncData t
  | AsyncCall.setPosFile handle pos =>
      FSSetPosFileAsync env client block handle pos errorMask asyncData t

/-- The finish hook the specification assigns to each operation (table of
section 4.2): the read finish hook for the two reads, the generic finish hook
for every other operation. -/
def AsyncCall.finish : AsyncCall → FinishFn
  | AsyncCall.readFile _ _ _ _ _ => FinishFn.fsCmdBlockFinishReadCmdFn
  | AsyncCall.readFileWithPos _ _ _ _ _ _ => FinishFn.fsCmdBlockFinishReadCmdFn
  | _ => FinishFn.fsCmdBlockFinishCmdFn

/-- The status the entry hands to the fatal-error handler for the first
validation its arguments fail, `none` when they pass every validation. -/
def AsyncCall.fatalStatus (env : Env) : AsyncCall → Option FSAStatus
  | AsyncCall.changeDir path => if path = 0 then some FSAStatus.InvalidPath else none
  | AsyncCall.closeFile _ => none
  | AsyncCall.getCwd returnedPath bytes =>
      if returnedPath = 0 then some FSAStatus.InvalidBuffer
      else if bytes < env.FSMaxPathLength then some FSAStatus.InvalidParam
      else none
  | AsyncCall.getPosFile _ returnedFpos =>
      if returnedFpos = 0 then some FSAStatus.InvalidBuffer else none
  | AsyncCall.openFileEx path mode _ _ _ fileHandle =>
      if fileHandle = 0 then some FSAStatus.InvalidBuffer
      else if path = 0 then some FSAStatus.InvalidPath
      else if mode = 0 then some FSAStatus.InvalidParam
      else none
  | AsyncCall.readFile _ size count _ _ =>
      if (size * count) % 2 ^ 64 > 0xFFFFFFFF then some FSAStatus.InvalidParam else none
  | AsyncCall.readFileWithPos _ size count _ _ _ =>
      if (size * count) % 2 ^ 64 > 0xFFFFFFFF then some FSAStatus.InvalidParam else none
  | AsyncCall.remove path => if path = 0 then some FSAStatus.InvalidPath else none
  | AsyncCall.setPosFile _ _ => none

/-- The request-size of a read: `size` capped at `FSMaxBytesPerRequest`. -/
def readSizeOf (env : Env) (size : Nat) : Nat :=
  if size > env.FSMaxBytesPerRequest then env.FSMaxBytesPerRequest else size

/-- The stores the entry performs into `blockBody->cmdData` once its
arguments passed validation, in program order. -/
def AsyncCall.bindings (env : Env) : AsyncCall → List (CmdDataField × Nat)
  | AsyncCall.getCwd returnedPath bytes =>
      [(CmdDataField.getCwd_returnedPath, returnedPath), (CmdDataField.getCwd_bytes, bytes)]
  | AsyncCall.getPosFile _ returnedFpos => [(CmdDataField.getPosFile_pos, returnedFpos)]
  | AsyncCall.openFileEx _ _ _ _ _ fileHandle => [(CmdDataField.openFile_handle, fileHandle)]
  | AsyncCall.readFile _ size count _ _ =>
      [(CmdDataField.readFile_chunkSize, size),
       (CmdDataField.readFile_bytesRemaining, (size * count) % 2 ^ 32),
       (CmdDataField.readFile_bytesRead, 0),
       (CmdDataField.readFile_readSize, readSizeOf env size)]
  | AsyncCall.readFileWithPos _ size count _ _ _ =>
      [(CmdDataField.readFile_chunkSize, size),
       (CmdDataField.readFile_bytesRemaining, (size * count) % 2 ^ 32),
       (CmdDataField.readFile_bytesRead, 0),
       (CmdDataField.readFile_readSize, readSizeOf env size)]
  | _ => []

/-- The arguments the entry gives its shim request builder (as the code passes
them). -/
def AsyncCall.request (env : Env) (clientHandle : Nat) : AsyncCall → FSAShimRequest
  | AsyncCall.changeDir path => FSAShimRequest.changeDir clientHandle path
  | AsyncCall.closeFile handle => FSAShimRequest.closeFile clientHandle handle
  | AsyncCall.getCwd _ _ => FSAShimRequest.getCwd clientHandle
  | AsyncCall.getPosFile handle _ => FSAShimRequest.getPosFile clientHandle handle
  | AsyncCall.openFileEx path mode unk1 unk2 unk3 _ =>
      FSAShimRequest.openFile clientHandle path mode unk1 unk2 unk3
  | AsyncCall.readFile buffer size _ handle readFlags =>
      FSAShimRequest.readFile clientHandle buffer (readSizeOf env size) 1 0 handle
        (readFlags &&& notReadWithPos env)
  | AsyncCall.readFileWithPos buffer size _ _ handle readFlags =>
      FSAShimRequest.readFile clientHandle buffer (readSizeOf env size) 1 0 handle
        (readFlags ||| env.ReadWithPos)
  | AsyncCall.remove path => FSAShimRequest.remove clientHandle path
  | AsyncCall.setPosFile handle pos => FSAShimRequest.setPosFile clientHandle handle pos

/-- The six-step sequence of section 4.2 of the specification, over the
per-operation data above: prepare-async; validation; bindings; shim builder;
prepare-error handling; submit. -/
def asyncSequence (env : Env) (client block : Nat) (call : AsyncCall)
    (errorMask asyncData : Nat) (t : Trace) : FSStatus × Trace :=
  let clientBody := env.fsClientGetBody client
  let blockBody := env.fsCmdBlockGetBody block
  let result := env.prepareAsyncResult t clientBody blockBody errorMask asyncData
  let t1 := t ++ [Event.prepareAsync clientBody blockBody errorMask asyncData result]
  if result ≠ FSStatus.OK then (result, t1) else
  match call.fatalStatus env with
  | some status => (FSStatus.FatalError, t1 ++ [Event.handleFatalError clientBody status])
  | none =>
    let t2 := t1 ++ (call.bindings env).map (fun b => Event.store blockBody b.1 b.2)
    let request := call.request env (env.clientHandle clientBody)
    let error := env.shimPrepareResult t2 blockBody request
    let t3 := t2 ++ [Event.shimPrepareRequest blockBody request error]
    if error ≠ 0 then
      (env.shimPrepareErrorResult t3 clientBody error,
       t3 ++ [Event.handleShimPrepareError clientBody error
                (env.shimPrepareErrorResult t3 clientBody error)])
    else
      (FSStatus.OK, t3 ++ [Event.submitCommand clientBody blockBody call.finish])

/-- An environment like `stubEnv` whose prepare-async fails with `FatalError`
(a client whose fatal latch is set). -/
def latchedEnv : Env :=
  { stubEnv with prepareAsyncResult := fun _ _ _ _ _ => FSStatus.FatalError }

/-- An environment like `stubEnv` whose shim builders fail with error `-5`. -/
def shimFailEnv : Env :=
  { stubEnv with shimPrepareResult := fun _ _ _ => -5 }

/-- The events an asynchronous call appends to the trace. -/
def AsyncCall.events (env : Env) (client block : Nat) (call : AsyncCall)
    (errorMask asyncData : Nat) (t : Trace) : List Event :=
  newEvents t (call.run env client block errorMask asyncData t)

/-- The status an asynchronous call returns. -/
def AsyncCall.status (env : Env) (client block : Nat) (call : AsyncCall)
    (errorMask asyncData : Nat) (t : Trace) : FSStatus :=
  (call.run env client block errorMask asyncData t).1

/-- Whether a trace event shows a failed phase: prepare-async returned a
non-OK status, the fatal-error handler was called (a validation failed), or a
shim builder returned a non-zero error. -/
def isFailure : Event → Bool
  | Event.prepareAsync _ _ _ _ result => decide (result ≠ FSStatus.OK)
  | Event.handleFatalError _ _ => true
  | Event.shimPrepareRequest _ _ error => decide (error ≠ 0)
  | _ => false

theorem newEvents_append (t evs : List Event) (r : FSStatus) :
    newEvents t (r, t ++ evs) = evs := by
  simp [newEvents]

end coreinit

namespace coreinit
open internal

/-! ## Auxiliary facts -/

theorem testBit_and_notReadWithPos (env : Env) (readFlags i : Nat) (h : readFlags < 2 ^ 32) :
    (readFlags &&& notReadWithPos env).testBit i
      = (readFlags.testBit i && !env.ReadWithPos.testBit i) := by
  have hmask : (0xFFFFFFFF : Nat) = 2 ^ 32 - 1 := by norm_num
  unfold notReadWithPos
  rw [hmask, Nat.testBit_and, Nat.testBit_xor, Nat.testBit_two_pow_sub_one,
    Nat.testBit_mod_two_pow]
  by_cases hi : i < 32
  · simp [hi]
  · have hle : 2 ^ 32 ≤ 2 ^ i := Nat.pow_le_pow_right (by norm_num) (Nat.le_of_not_lt hi)
    have : readFlags.testBit i = false := Nat.testBit_lt_two_pow (lt_of_lt_of_le h hle)
    simp [this]

theorem and_notReadWithPos_congr (env : Env) (a b : Nat)
    (h : ∀ i, env.ReadWithPos.testBit i = false → a.testBit i = b.testBit i) :
    a &&& notReadWithPos env = b &&& notReadWithPos env := by
  have hmask : (0xFFFFFFFF : Nat) = 2 ^ 32 - 1 := by norm_num
  apply Nat.eq_of_testBit_eq
  intro i
  unfold notReadWithPos
  rw [hmask, Nat.testBit_and, Nat.testBit_and, Nat.testBit_xor, Nat.testBit_two_pow_sub_one,
    Nat.testBit_mod_two_pow]
  cases hm : env.ReadWithPos.testBit i
  · rw [h i hm]
  · by_cases hi : i < 32 <;> simp [hi]

theorem or_ReadWithPos_congr (env : Env) (a b : Nat)
    (h : ∀ i, env.ReadWithPos.testBit i = false → a.testBit i = b.testBit i) :
    a ||| env.ReadWithPos = b ||| env.ReadWithPos := by
  apply Nat.eq_of_testBit_eq
  intro i
  rw [Nat.testBit_or, Nat.testBit_or]
  cases hm : env.ReadWithPos.testBit i
  · rw [h i hm]
  · simp

/-- The read flags `internal::readFileWithPosAsync` hands to the shim builder:
the ones it was given, once, when prepare-async succeeds and the overflow guard
passes, and none otherwise. -/
theorem readFileWithPosAsync_readFlags (env : Env) (client block buffer size count pos handle
    readFlags errorMask asyncData : Nat) (t : Trace) :
    (newEvents t (readFileWithPosAsync env client block buffer size count pos handle readFlags
        errorMask asyncData t)).filterMap readFlagsOf
      = if env.prepareAsyncResult t (env.fsClientGetBody client) (env.fsCmdBlockGetBody block)
            errorMask asyncData = FSStatus.OK ∧ ¬ (size * count) % 2 ^ 64 > 0xFFFFFFFF
        then [readFlags] else [] := by
  unfold readFileWithPosAsync
  simp only [fsCmdBlockPrepareAsync, fsClientHandleFatalError, storeCmdData,
    fsaShimPrepareRequest, fsClientHandleShimPrepareError, fsClientSubmitCommand]
  split_ifs <;> simp_all [newEvents, readFlagsOf]

/-- The read entry when the 64-bit product exceeds 32 bits. -/
theorem readFileWithPosAsync_overflow (env : Env) (client block buffer size count pos handle
    readFlags errorMask asyncData : Nat) (t : Trace)
    (hsize : size < 2 ^ 32) (hcount : count < 2 ^ 32)
    (hprep : env.prepareAsyncResult t (env.fsClientGetBody client) (env.fsCmdBlockGetBody block)
      errorMask asyncData = FSStatus.OK)
    (hover : size * count > 2 ^ 32 - 1) :
    readFileWithPosAsync env client block buffer size count pos handle readFlags errorMask
        asyncData t
      = (FSStatus.FatalError,
         t ++ [Event.prepareAsync (env.fsClientGetBody client) (env.fsCmdBlockGetBody block)
                 errorMask asyncData FSStatus.OK,
               Event.handleFatalError (env.fsClientGetBody client) FSAStatus.InvalidParam]) := by
  have hlt : size * count < 2 ^ 64 := by
    calc size * count < 2 ^ 32 * 2 ^ 32 := Nat.mul_lt_mul'' hsize hcount
      _ = 2 ^ 64 := by norm_num
  have hmod : (size * count) % 2 ^ 64 = size * count := Nat.mod_eq_of_lt hlt
  have hgt : (size * count) % 2 ^ 64 > 0xFFFFFFFF := by
    rw [hmod]
    exact hover
  unfold readFileWithPosAsync
  simp only [fsCmdBlockPrepareAsync, fsClientHandleFatalError, hprep, ne_eq,
    not_true_eq_false, if_false, if_pos hgt, List.append_assoc, List.singleton_append]

/-- The read entry when the product fits in 32 bits: the events up to the shim
builder call, followed by exactly one more event. -/
theorem readFileWithPosAsync_fits (env : Env) (client block buffer size count pos handle
    readFlags errorMask asyncData : Nat) (t : Trace)
    (hprep : env.prepareAsyncResult t (env.fsClientGetBody client) (env.fsCmdBlockGetBody block)
      errorMask asyncData = FSStatus.OK)
    (hfits : size * count ≤ 2 ^ 32 - 1) :
    ∃ error last,
      newEvents t (readFileWithPosAsync env client block buffer size count pos handle readFlags
        errorMask asyncData t)
      = [Event.prepareAsync (env.fsClientGetBody client) (env.fsCmdBlockGetBody block)
                 errorMask asyncData FSStatus.OK,
         Event.store (env.fsCmdBlockGetBody block) CmdDataField.readFile_chunkSize size,
         Event.store (env.fsCmdBlockGetBody block) CmdDataField.readFile_bytesRemaining
           (size * count),
         Event.store (env.fsCmdBlockGetBody block) CmdDataField.readFile_bytesRead 0,
         Event.store (env.fsCmdBlockGetBody block) CmdDataField.readFile_readSize
           (min size env.FSMaxBytesPerRequest),
         Event.shimPrepareRequest (env.fsCmdBlockGetBody block)
           (FSAShimRequest.readFile (env.clientHandle (env.fsClientGetBody client)) buffer
             (min size env.FSMaxBytesPerRequest) 1 pos handle readFlags) error,
         last] ∧ isFatal last = false := by
  have hlt : size * count < 2 ^ 32 := by omega
  have hmod : (size * count) % 2 ^ 64 = size * count :=
    Nat.mod_eq_of_lt (lt_trans hlt (by norm_num))
  have hmod32 : (size * count) % 2 ^ 32 = size * count := Nat.mod_eq_of_lt hlt
  have hpass : ¬ (size * count) % 2 ^ 64 > 0xFFFFFFFF := by
    rw [hmod]
    omega
  have hmin : (if size > env.FSMaxBytesPerRequest then env.FSMaxBytesPerRequest else size)
      = min size env.FSMaxBytesPerRequest := by
    split_ifs with h
    · exact (Nat.min_eq_right (Nat.le_of_lt h)).symm
    · exact (Nat.min_eq_left (Nat.le_of_not_lt h)).symm
  unfold readFileWithPosAsync
  simp only [fsCmdBlockPrepareAsync, fsClientHandleFatalError, storeCmdData,
    fsaShimPrepareRequest, fsClientHandleShimPrepareError, fsClientSubmitCommand, hprep]
  simp only [hmod32, hmin, ne_eq, not_true_eq_false, if_false, if_neg hpass]
  split_ifs <;> simp only [newEvents, List.append_assoc, List.singleton_append,
    List.drop_left] <;> exact ⟨_, _, rfl, rfl⟩

/-- The overflow guard of the read entry, for any position and flags. -/
theorem readFileWithPosAsync_rejected_iff (env : Env) (client block buffer size count pos handle
    readFlags errorMask asyncData : Nat) (t : Trace)
    (hsize : size < 2 ^ 32) (hcount : count < 2 ^ 32)
    (hprep : env.prepareAsyncResult t (env.fsClientGetBody client) (env.fsCmdBlockGetBody block)
      errorMask asyncData = FSStatus.OK) :
    rejectedInvalidParam (env.fsClientGetBody client) t
        (readFileWithPosAsync env client block buffer size count pos handle readFlags errorMask
          asyncData t)
      ↔ size * count > 2 ^ 32 - 1 := by
  constructor
  · intro hrej
    by_contra hnot
    obtain ⟨error, last, hev, _⟩ := readFileWithPosAsync_fits env client block buffer size count
      pos handle readFlags errorMask asyncData t hprep (Nat.le_of_not_lt hnot)
    have hno := hrej.2.2 (Event.shimPrepareRequest (env.fsCmdBlockGetBody block)
      (FSAShimRequest.readFile (env.clientHandle (env.fsClientGetBody client)) buffer
        (min size env.FSMaxBytesPerRequest) 1 pos handle readFlags) error)
      (by rw [hev]; simp)
    simp [isShimPrepare] at hno
  · intro hover
    rw [readFileWithPosAsync_overflow env client block buffer size count pos handle readFlags
      errorMask asyncData t hsize hcount hprep hover]
    unfold rejectedInvalidParam
    rw [newEvents_append]
    simp [isShimPrepare, isSubmit]

/-- Every asynchronous entry is the six-step sequence on its own data. -/
theorem run_eq_asyncSequence (env : Env) (client block : Nat) (call : AsyncCall)
    (errorMask asyncData : Nat) (t : Trace) :
    call.run env client block errorMask asyncData t
      = asyncSequence env client block call errorMask asyncData t := by
  cases call <;>
    simp only [AsyncCall.run, asyncSequence, FSChangeDirAsync, FSCloseFileAsync, FSGetCwdAsync,
      FSGetPosFileAsync, FSOpenFileExAsync, FSReadFileAsync, FSReadFileWithPosAsync,
      FSRemoveAsync, FSSetPosFileAsync, readFileWithPosAsync, fsCmdBlockPrepareAsync,
      fsClientHandleFatalError, storeCmdData, fsaShimPrepareRequest,
      fsClientHandleShimPrepareError, fsClientSubmitCommand, AsyncCall.fatalStatus,
      AsyncCall.bindings, AsyncCall.request, AsyncCall.finish, readSizeOf, List.map,
      List.append_assoc, List.singleton_append, List.cons_append, List.nil_append,
      List.append_nil] <;>
    split_ifs <;> rfl

/-- The four outcomes of the six-step sequence, with the events of each. -/
theorem asyncSequence_cases (env : Env) (client block : Nat) (call : AsyncCall)
    (errorMask asyncData : Nat) (t : Trace) :
    (∃ s, s ≠ FSStatus.OK ∧
      env.prepareAsyncResult t (env.fsClientGetBody client) (env.fsCmdBlockGetBody block)
        errorMask asyncData = s ∧
      (asyncSequence env client block call errorMask asyncData t).1 = s ∧
      newEvents t (asyncSequence env client block call errorMask asyncData t)
        = [Event.prepareAsync (env.fsClientGetBody client) (env.fsCmdBlockGetBody block)
            errorMask asyncData s]) ∨
    (∃ status,
      env.prepareAsyncResult t (env.fsClientGetBody client) (env.fsCmdBlockGetBody block)
        errorMask asyncData = FSStatus.OK ∧
      call.fatalStatus env = some status ∧
      (asyncSequence env client block call errorMask asyncData t).1 = FSStatus.FatalError ∧
      newEvents t (asyncSequence env client block call errorMask asyncData t)
        = [Event.prepareAsync (env.fsClientGetBody client) (env.fsCmdBlockGetBody block)
            errorMask asyncData FSStatus.OK,
           Event.handleFatalError (env.fsClientGetBody client) status]) ∨
    (∃ error, error ≠ 0 ∧
      env.prepareAsyncResult t (env.fsClientGetBody client) (env.fsCmdBlockGetBody block)
        errorMask asyncData = FSStatus.OK ∧
      call.fatalStatus env = none ∧
      (asyncSequence env client block call errorMask asyncData t).1
        = env.shimPrepareErrorResult
            (t ++ ([Event.prepareAsync (env.fsClientGetBody client) (env.fsCmdBlockGetBody block)
                errorMask asyncData FSStatus.OK]
              ++ (call.bindings env).map (fun b => Event.store (env.fsCmdBlockGetBody block) b.1 b.2))
              ++ [Event.shimPrepareRequest (env.fsCmdBlockGetBody block)
                  (call.request env (env.clientHandle (env.fsClientGetBody client))) error])
            (env.fsClientGetBody client) error ∧
      newEvents t (asyncSequence env client block call errorMask asyncData t)
        = ([Event.prepareAsync (env.fsClientGetBody client) (env.fsCmdBlockGetBody block)
              errorMask asyncData FSStatus.OK]
            ++ (call.bindings env).map (fun b => Event.store (env.fsCmdBlockGetBody block) b.1 b.2))
          ++ [Event.shimPrepareRequest (env.fsCmdBlockGetBody block)
                (call.request env (env.clientHandle (env.fsClientGetBody client))) error,
              Event.handleShimPrepareError (env.fsClientGetBody client) error
                (asyncSequence env client block call errorMask asyncData t).1]) ∨
    (env.prepareAsyncResult t (env.fsClientGetBody client) (env.fsCmdBlockGetBody block)
        errorMask asyncData = FSStatus.OK ∧
      call.fatalStatus env = none ∧
      (asyncSequence env client block call errorMask asyncData t).1 = FSStatus.OK ∧
      newEvents t (asyncSequence env client block call errorMask asyncData t)
        = ([Event.prepareAsync (env.fsClientGetBody client) (env.fsCmdBlockGetBody block)
              errorMask asyncData FSStatus.OK]
            ++ (call.bindings env).map (fun b => Event.store (env.fsCmdBlockGetBody block) b.1 b.2))
          ++ [Event.shimPrepareRequest (env.fsCmdBlockGetBody block)
                (call.request env (env.clientHandle (env.fsClientGetBody client))) 0,
              Event.submitCommand (env.fsClientGetBody client) (env.fsCmdBlockGetBody block)
                call.finish]) := by
  by_cases hprep : env.prepareAsyncResult t (env.fsClientGetBody client)
      (env.fsCmdBlockGetBody block) errorMask asyncData = FSStatus.OK
  · obtain hfatal | ⟨status, hfatal⟩ := Option.eq_none_or_eq_some (call.fatalStatus env)
    · right; right
      by_cases herr : env.shimPrepareResult
          (t ++ [Event.prepareAsync (env.fsClientGetBody client) (env.fsCmdBlockGetBody block)
                errorMask asyncData FSStatus.OK]
              ++ (call.bindings env).map (fun b => Event.store (env.fsCmdBlockGetBody block) b.1 b.2))
          (env.fsCmdBlockGetBody block)
          (call.request env (env.clientHandle (env.fsClientGetBody client))) = 0
      · right
        have h : asyncSequence env client block call errorMask asyncData t
            = (FSStatus.OK,
               t ++ [Event.prepareAsync (env.fsClientGetBody client)
                  (env.fsCmdBlockGetBody block) errorMask asyncData FSStatus.OK]
                ++ (call.bindings env).map
                    (fun b => Event.store (env.fsCmdBlockGetBody block) b.1 b.2)
                ++ [Event.shimPrepareRequest (env.fsCmdBlockGetBody block)
                    (call.request env (env.clientHandle (env.fsClientGetBody client))) 0]
                ++ [Event.submitCommand (env.fsClientGetBody client)
                    (env.fsCmdBlockGetBody block) call.finish]) := by
          unfold asyncSequence
          simp only [hprep, hfatal, herr, ne_eq, not_true_eq_false, if_false]
        rw [h]
        exact ⟨hprep, hfatal, rfl, by simp [newEvents]⟩
      · left
        refine ⟨_, herr, hprep, hfatal, ?_, ?_⟩
        · unfold asyncSequence
          simp only [hprep, hfatal, ne_eq, not_true_eq_false, if_false, herr,
            not_false_eq_true, if_true]
          simp only [List.append_assoc]
        · unfold asyncSequence
          simp only [hprep, hfatal, ne_eq, not_true_eq_false, if_false, herr,
            not_false_eq_true, if_true]
          simp [newEvents]
    · right; left
      have h : asyncSequence env client block call errorMask asyncData t
          = (FSStatus.FatalError,
             t ++ [Event.prepareAsync (env.fsClientGetBody client)
                (env.fsCmdBlockGetBody block) errorMask asyncData FSStatus.OK]
              ++ [Event.handleFatalError (env.fsClientGetBody client) status]) := by
        unfold asyncSequence
        simp only [hprep, hfatal, ne_eq, not_true_eq_false, if_false]
      rw [h]
      exact ⟨status, hprep, hfatal, rfl, by simp [newEvents]⟩
  · left
    have h : asyncSequence env client block call errorMask asyncData t
        = (env.prepareAsyncResult t (env.fsClientGetBody client) (env.fsCmdBlockGetBody block)
            errorMask asyncData,
           t ++ [Event.prepareAsync (env.fsClientGetBody client)
              (env.fsCmdBlockGetBody block) errorMask asyncData
              (env.prepareAsyncResult t (env.fsClientGetBody client)
                (env.fsCmdBlockGetBody block) errorMask asyncData)]) := by
      unfold asyncSequence
      simp only [ne_eq, hprep, not_false_eq_true, if_true]
    rw [h]
    exact ⟨_, hprep, rfl, rfl, by simp [newEvents]⟩

/-! ## C1: the synchronous forms -/

/-- C1. Each of `FSChangeDir`, `FSCloseFile`, `FSGetCwd`, `FSGetPosFile`,
`FSOpenFileEx`, `FSReadFile`, `FSRemove`, `FSSetPosFile` is the specification's
synchronous form of its asynchronous entry with every argument in its own
position.  `FSReadFileWithPos` is the synchronous form of
`FSReadFileWithPosAsync` with `handle` and `pos` exchanged; at `pos = 5`,
`handle = 7` it builds the shim read request for file handle `5`, whereas the
synchronous form of `FSReadFileWithPosAsync(…, pos = 5, handle = 7, …)` builds
it for file handle `7`, so the two differ. -/
theorem FSReadFileWithPos_exchanges_handle_and_pos :
    (∀ env client block path errorMask asyncData t,
      FSChangeDir env client block path errorMask asyncData t
        = syncForm env (FSChangeDirAsync env client block path)
            client block errorMask asyncData t) ∧
    (∀ env client block handle errorMask asyncData t,
      FSCloseFile env client block handle errorMask asyncData t
        = syncForm env (FSCloseFileAsync env client block handle)
            client block errorMask asyncData t) ∧
    (∀ env client block returnedPath bytes errorMask asyncData t,
      FSGetCwd env client block returnedPath bytes errorMask asyncData t
        = syncForm env (FSGetCwdAsync env client block returnedPath bytes)
            client block errorMask asyncData t) ∧
    (∀ env client block handle returnedFpos errorMask asyncData t,
      FSGetPosFile env client block handle returnedFpos errorMask asyncData t
        = syncForm env (FSGetPosFileAsync env client block handle returnedFpos)
            client block errorMask asyncData t) ∧
    (∀ env client block path mode unk1 unk2 unk3 fileHandle errorMask asyncData t,
      FSOpenFileEx env client block path mode unk1 unk2 unk3 fileHandle errorMask asyncData t
        = syncForm env (FSOpenFileExAsync env client block path mode unk1 unk2 unk3 fileHandle)
            client block errorMask asyncData t) ∧
    (∀ env client block buffer size count handle readFlags errorMask asyncData t,
      FSReadFile env client block buffer size count handle readFlags errorMask asyncData t
        = syncForm env (FSReadFileAsync env client block buffer size count handle readFlags)
            client block errorMask asyncData t) ∧
    (∀ env client block path errorMask asyncData t,
      FSRemove env client block path errorMask asyncData t
        = syncForm env (FSRemoveAsync env client block path)
            client block errorMask asyncData t) ∧
    (∀ env client block handle pos errorMask asyncData t,
      FSSetPosFile env client block handle pos errorMask asyncData t
        = syncForm env (FSSetPosFileAsync env client block handle pos)
            client block errorMask asyncData t) ∧
    (∀ env client block buffer size count pos handle readFlags errorMask asyncData t,
      FSReadFileWithPos env client block buffer size count pos handle readFlags errorMask
          asyncData t
        = syncForm env
            (FSReadFileWithPosAsync env client block buffer size count handle pos readFlags)
            client block errorMask asyncData t) ∧
    FSReadFileWithPos stubEnv 1 2 3 4 1 5 7 0 0 9 []
      = (FSStatus.OK,
         [Event.prepareSync 1 2 9,
          Event.prepareAsync 1 2 0 9 FSStatus.OK,
          Event.store 2 CmdDataField.readFile_chunkSize 4,
          Event.store 2 CmdDataField.readFile_bytesRemaining 4,
          Event.store 2 CmdDataField.readFile_bytesRead 0,
          Event.store 2 CmdDataField.readFile_readSize 4,
          Event.shimPrepareRequest 2 (FSAShimRequest.readFile 100 3 4 1 0 5 1) 0,
          Event.submitCommand 1 2 FinishFn.fsCmdBlockFinishReadCmdFn,
          Event.handleAsyncResult 1 2 FSStatus.OK 0 FSStatus.OK]) ∧
    syncForm stubEnv (FSReadFileWithPosAsync stubEnv 1 2 3 4 1 5 7 0) 1 2 0 9 []
      = (FSStatus.OK,
         [Event.prepareSync 1 2 9,
          Event.prepareAsync 1 2 0 9 FSStatus.OK,
          Event.store 2 CmdDataField.readFile_chunkSize 4,
          Event.store 2 CmdDataField.readFile_bytesRemaining 4,
          Event.store 2 CmdDataField.readFile_bytesRead 0,
          Event.store 2 CmdDataField.readFile_readSize 4,
          Event.shimPrepareRequest 2 (FSAShimRequest.readFile 100 3 4 1 0 7 1) 0,
          Event.submitCommand 1 2 FinishFn.fsCmdBlockFinishReadCmdFn,
          Event.handleAsyncResult 1 2 FSStatus.OK 0 FSStatus.OK]) ∧
    FSReadFileWithPos stubEnv 1 2 3 4 1 5 7 0 0 9 []
      ≠ syncForm stubEnv (FSReadFileWithPosAsync stubEnv 1 2 3 4 1 5 7 0) 1 2 0 9 [] := by
  refine ⟨fun _ _ _ _ _ _ _ => rfl, fun _ _ _ _ _ _ _ => rfl,
    fun _ _ _ _ _ _ _ _ => rfl, fun _ _ _ _ _ _ _ _ => rfl,
    fun _ _ _ _ _ _ _ _ _ _ _ _ => rfl, fun _ _ _ _ _ _ _ _ _ _ _ => rfl,
    fun _ _ _ _ _ _ _ => rfl, fun _ _ _ _ _ _ _ _ => rfl,
    fun _ _ _ _ _ _ _ _ _ _ _ _ => rfl, by decide, by decide, by decide⟩

/-! ## C2: the file position of a positioned read -/

/-- C2. `FSReadFileWithPosAsync` does not hand the caller's `pos` on: its
outcome is the same for every two positions, it is that of
`internal::readFileWithPosAsync` at position `0`, and at `pos = 5`,
`handle = 7` the shim read request it builds carries file position `0`.
`FSReadFileAsync` delegates with position `0` as stated. -/
theorem FSReadFileWithPosAsync_ignores_pos :
    (∀ env client block buffer size count pos pos2 handle readFlags errorMask asyncData t,
      FSReadFileWithPosAsync env client block buffer size count pos handle readFlags errorMask
          asyncData t
        = FSReadFileWithPosAsync env client block buffer size count pos2 handle readFlags
            errorMask asyncData t) ∧
    (∀ env client block buffer size count pos handle readFlags errorMask asyncData t,
      FSReadFileWithPosAsync env client block buffer size count pos handle readFlags errorMask
          asyncData t
        = readFileWithPosAsync env client block buffer size count 0 handle
            (readFlags ||| env.ReadWithPos) errorMask asyncData t) ∧
    (∀ env client block buffer size count handle readFlags errorMask asyncData t,
      FSReadFileAsync env client block buffer size count handle readFlags errorMask asyncData t
        = readFileWithPosAsync env client block buffer size count 0 handle
            (readFlags &&& notReadWithPos env) errorMask asyncData t) ∧
    FSReadFileWithPosAsync stubEnv 1 2 3 4 1 5 7 0 0 9 []
      = (FSStatus.OK,
         [Event.prepareAsync 1 2 0 9 FSStatus.OK,
          Event.store 2 CmdDataField.readFile_chunkSize 4,
          Event.store 2 CmdDataField.readFile_bytesRemaining 4,
          Event.store 2 CmdDataField.readFile_bytesRead 0,
          Event.store 2 CmdDataField.readFile_readSize 4,
          Event.shimPrepareRequest 2 (FSAShimRequest.readFile 100 3 4 1 0 7 1) 0,
          Event.submitCommand 1 2 FinishFn.fsCmdBlockFinishReadCmdFn]) := by
  refine ⟨fun _ _ _ _ _ _ _ _ _ _ _ _ _ => rfl, fun _ _ _ _ _ _ _ _ _ _ _ _ => rfl,
    fun _ _ _ _ _ _ _ _ _ _ _ => rfl, by decide⟩

/-! ## C3: the `ReadWithPos` flag -/

/-- C3. For 32-bit caller flags `readFlags`: every read-flags value
`FSReadFileAsync` hands to the shim read builder has each bit of
`FSReadFlag::ReadWithPos` clear and every other bit equal to the caller's, every
one `FSReadFileWithPosAsync` hands over has each bit of `ReadWithPos` set and
every other bit equal to the caller's; when prepare-async succeeds and the
overflow guard passes exactly one such value is handed over by each entry; and
two caller flag values that agree outside `ReadWithPos` give the same outcome. -/
theorem read_entries_force_ReadWithPos (env : Env) (client block buffer size count pos handle
    readFlags errorMask asyncData : Nat) (t : Trace) (hflags : readFlags < 2 ^ 32) :
    (∀ f ∈ (newEvents t (FSReadFileAsync env client block buffer size count handle readFlags
          errorMask asyncData t)).filterMap readFlagsOf,
      ∀ i, (env.ReadWithPos.testBit i = true → f.testBit i = false) ∧
           (env.ReadWithPos.testBit i = false → f.testBit i = readFlags.testBit i)) ∧
    (∀ f ∈ (newEvents t (FSReadFileWithPosAsync env client block buffer size count pos handle
          readFlags errorMask asyncData t)).filterMap readFlagsOf,
      ∀ i, (env.ReadWithPos.testBit i = true → f.testBit i = true) ∧
           (env.ReadWithPos.testBit i = false → f.testBit i = readFlags.testBit i)) ∧
    (env.prepareAsyncResult t (env.fsClientGetBody client) (env.fsCmdBlockGetBody block)
          errorMask asyncData = FSStatus.OK →
      size * count ≤ 0xFFFFFFFF →
      (newEvents t (FSReadFileAsync env client block buffer size count handle readFlags
          errorMask asyncData t)).filterMap readFlagsOf = [readFlags &&& notReadWithPos env] ∧
      (newEvents t (FSReadFileWithPosAsync env client block buffer size count pos handle
          readFlags errorMask asyncData t)).filterMap readFlagsOf
        = [readFlags ||| env.ReadWithPos]) ∧
    (∀ readFlags2,
      (∀ i, env.ReadWithPos.testBit i = false → readFlags2.testBit i = readFlags.testBit i) →
      FSReadFileAsync env client block buffer size count handle readFlags2 errorMask asyncData t
        = FSReadFileAsync env client block buffer size count handle readFlags errorMask
            asyncData t ∧
      FSReadFileWithPosAsync env client block buffer size count pos handle readFlags2 errorMask
          asyncData t
        = FSReadFileWithPosAsync env client block buffer size count pos handle readFlags
            errorMask asyncData t) := by
  refine ⟨?_, ?_, ?_, ?_⟩
  · intro f hf i
    unfold FSReadFileAsync at hf
    rw [readFileWithPosAsync_readFlags] at hf
    split_ifs at hf
    · simp only [List.mem_singleton] at hf
      subst hf
      rw [testBit_and_notReadWithPos env readFlags i hflags]
      constructor
      · intro hm
        simp [hm]
      · intro hm
        simp [hm]
    · simp at hf
  · intro f hf i
    unfold FSReadFileWithPosAsync at hf
    rw [readFileWithPosAsync_readFlags] at hf
    split_ifs at hf
    · simp only [List.mem_singleton] at hf
      subst hf
      rw [Nat.testBit_or]
      constructor
      · intro hm
        simp [hm]
      · intro hm
        simp [hm]
    · simp at hf
  · intro hprep hguard
    have hmod : (size * count) % 2 ^ 64 = size * count :=
      Nat.mod_eq_of_lt (lt_of_le_of_lt hguard (by norm_num))
    have hpass : ¬ (size * count) % 2 ^ 64 > 0xFFFFFFFF := by
      rw [hmod]
      exact Nat.not_lt.mpr hguard
    unfold FSReadFileAsync FSReadFileWithPosAsync
    rw [readFileWithPosAsync_readFlags, readFileWithPosAsync_readFlags]
    exact ⟨if_pos ⟨hprep, hpass⟩, if_pos ⟨hprep, hpass⟩⟩
  · intro readFlags2 hagree
    unfold FSReadFileAsync FSReadFileWithPosAsync
    rw [and_notReadWithPos_congr env readFlags2 readFlags hagree,
      or_ReadWithPos_congr env readFlags2 readFlags hagree]
    exact ⟨rfl, rfl⟩

/-- Witness for C3: caller flags `5` with `ReadWithPos = 1`; `FSReadFileAsync`
hands `4` to the shim builder and `FSReadFileWithPosAsync` hands `5`. -/
theorem read_entries_force_ReadWithPos_witness :
    (5 : Nat) < 2 ^ 32 ∧
    (newEvents [] (FSReadFileAsync stubEnv 1 2 3 4 1 7 5 0 9 [])).filterMap readFlagsOf = [4] ∧
    (newEvents [] (FSReadFileWithPosAsync stubEnv 1 2 3 4 1 6 7 5 0 9 [])).filterMap readFlagsOf
      = [5] :=
  ⟨by decide,
   (read_entries_force_ReadWithPos stubEnv 1 2 3 4 1 6 7 5 0 9 [] (by decide)).2.2.1
     rfl (by decide)⟩

/-! ## C4: the overflow guard of the read path -/

/-- C4. For 32-bit `size` and `count` and a successful prepare-async, the read
entry `internal::readFileWithPosAsync`, and with it `FSReadFileAsync` and
`FSReadFileWithPosAsync`, calls the fatal-error handler with `InvalidParam`,
returns `FatalError` and calls neither the shim builder nor submit if and only
if the exact product `size * count` is greater than `2^32 - 1`; when it is, the
call does nothing but prepare-async and the fatal-error handler. -/
theorem read_overflow_guard (env : Env) (client block buffer size count pos handle
    readFlags errorMask asyncData : Nat) (t : Trace)
    (hsize : size < 2 ^ 32) (hcount : count < 2 ^ 32)
    (hprep : env.prepareAsyncResult t (env.fsClientGetBody client) (env.fsCmdBlockGetBody block)
      errorMask asyncData = FSStatus.OK) :
    (rejectedInvalidParam (env.fsClientGetBody client) t
        (readFileWithPosAsync env client block buffer size count pos handle readFlags errorMask
          asyncData t)
      ↔ size * count > 2 ^ 32 - 1) ∧
    (rejectedInvalidParam (env.fsClientGetBody client) t
        (FSReadFileAsync env client block buffer size count handle readFlags errorMask
          asyncData t)
      ↔ size * count > 2 ^ 32 - 1) ∧
    (rejectedInvalidParam (env.fsClientGetBody client) t
        (FSReadFileWithPosAsync env client block buffer size count pos handle readFlags errorMask
          asyncData t)
      ↔ size * count > 2 ^ 32 - 1) ∧
    (size * count > 2 ^ 32 - 1 →
      readFileWithPosAsync env client block buffer size count pos handle readFlags errorMask
          asyncData t
        = (FSStatus.FatalError,
           t ++ [Event.prepareAsync (env.fsClientGetBody client) (env.fsCmdBlockGetBody block)
                   errorMask asyncData FSStatus.OK,
                 Event.handleFatalError (env.fsClientGetBody client)
                   FSAStatus.InvalidParam])) :=
  ⟨readFileWithPosAsync_rejected_iff env client block buffer size count pos handle readFlags
      errorMask asyncData t hsize hcount hprep,
   readFileWithPosAsync_rejected_iff env client block buffer size count 0 handle
      (readFlags &&& notReadWithPos env) errorMask asyncData t hsize hcount hprep,
   readFileWithPosAsync_rejected_iff env client block buffer size count 0 handle
      (readFlags ||| env.ReadWithPos) errorMask asyncData t hsize hcount hprep,
   readFileWithPosAsync_overflow env client block buffer size count pos handle readFlags
      errorMask asyncData t hsize hcount hprep⟩

/-- Witness for C4: `size = count = 0x10000` is rejected, and the boundary
`size = 65537`, `count = 65535` (product `2^32 - 1`) is not. -/
theorem read_overflow_guard_witness :
    (0x10000 : Nat) < 2 ^ 32 ∧
    stubEnv.prepareAsyncResult [] (stubEnv.fsClientGetBody 1) (stubEnv.fsCmdBlockGetBody 2) 0 9
      = FSStatus.OK ∧
    rejectedInvalidParam 1 []
      (readFileWithPosAsync stubEnv 1 2 3 0x10000 0x10000 0 7 0 0 9 []) ∧
    (65537 : Nat) < 2 ^ 32 ∧ (65535 : Nat) < 2 ^ 32 ∧ 65537 * 65535 = 2 ^ 32 - 1 ∧
    ¬ rejectedInvalidParam 1 []
      (readFileWithPosAsync stubEnv 1 2 3 65537 65535 0 7 0 0 9 []) :=
  ⟨by decide, rfl,
   (read_overflow_guard stubEnv 1 2 3 0x10000 0x10000 0 7 0 0 9 [] (by decide) (by decide)
      rfl).1.mpr (by decide),
   by decide, by decide, by decide,
   fun h => absurd
     ((read_overflow_guard stubEnv 1 2 3 65537 65535 0 7 0 0 9 [] (by decide) (by decide)
        rfl).1.mp h) (by decide)⟩

/-! ## C5: the size of the first read request -/

/-- C5. The request built by the read entry asks for `min(size,
FSMaxBytesPerRequest)` bytes, one element, not for the total length.  With
`FSMaxBytesPerRequest = 0x10000`: for `size = 1`, `count = 2` (total length `2`)
the single request built by `FSReadFileAsync` asks for `1` byte while
`bytesRemaining = 2` is recorded; for `size = 1`, `count = 0x30000` it asks for
`1` byte, not `0x10000`, while `bytesRemaining = 0x30000` is recorded. -/
theorem read_entry_first_request_is_one_element :
    FSReadFileAsync stubEnv 1 2 3 1 2 7 0 0 9 []
      = (FSStatus.OK,
         [Event.prepareAsync 1 2 0 9 FSStatus.OK,
          Event.store 2 CmdDataField.readFile_chunkSize 1,
          Event.store 2 CmdDataField.readFile_bytesRemaining 2,
          Event.store 2 CmdDataField.readFile_bytesRead 0,
          Event.store 2 CmdDataField.readFile_readSize 1,
          Event.shimPrepareRequest 2 (FSAShimRequest.readFile 100 3 1 1 0 7 0) 0,
          Event.submitCommand 1 2 FinishFn.fsCmdBlockFinishReadCmdFn]) ∧
    stubEnv.FSMaxBytesPerRequest = 0x10000 ∧
    FSReadFileAsync stubEnv 1 2 3 1 0x30000 7 0 0 9 []
      = (FSStatus.OK,
         [Event.prepareAsync 1 2 0 9 FSStatus.OK,
          Event.store 2 CmdDataField.readFile_chunkSize 1,
          Event.store 2 CmdDataField.readFile_bytesRemaining 0x30000,
          Event.store 2 CmdDataField.readFile_bytesRead 0,
          Event.store 2 CmdDataField.readFile_readSize 1,
          Event.shimPrepareRequest 2 (FSAShimRequest.readFile 100 3 1 1 0 7 0) 0,
          Event.submitCommand 1 2 FinishFn.fsCmdBlockFinishReadCmdFn]) := by
  refine ⟨by decide, rfl, by decide⟩

/-! ## C6: validation order of `FSOpenFileExAsync` -/

/-- C6. After a successful prepare-async `FSOpenFileExAsync` checks the
returned-handle destination, then the path, then the mode: with `fileHandle`
null it calls the fatal-error handler once with `InvalidBuffer`; else with
`path` null once with `InvalidPath`; else with `mode` null once with
`InvalidParam`.  In each case it returns `FatalError` and does nothing else: no
store into the block, no shim builder call, no submit. -/
theorem FSOpenFileExAsync_validation_order (env : Env) (client block path mode unk1 unk2 unk3
    fileHandle errorMask asyncData : Nat) (t : Trace)
    (hprep : env.prepareAsyncResult t (env.fsClientGetBody client) (env.fsCmdBlockGetBody block)
      errorMask asyncData = FSStatus.OK) :
    (fileHandle = 0 →
      FSOpenFileExAsync env client block path mode unk1 unk2 unk3 fileHandle errorMask
          asyncData t
        = (FSStatus.FatalError,
           t ++ [Event.prepareAsync (env.fsClientGetBody client) (env.fsCmdBlockGetBody block)
                   errorMask asyncData FSStatus.OK,
                 Event.handleFatalError (env.fsClientGetBody client)
                   FSAStatus.InvalidBuffer])) ∧
    (fileHandle ≠ 0 → path = 0 →
      FSOpenFileExAsync env client block path mode unk1 unk2 unk3 fileHandle errorMask
          asyncData t
        = (FSStatus.FatalError,
           t ++ [Event.prepareAsync (env.fsClientGetBody client) (env.fsCmdBlockGetBody block)
                   errorMask asyncData FSStatus.OK,
                 Event.handleFatalError (env.fsClientGetBody client)
                   FSAStatus.InvalidPath])) ∧
    (fileHandle ≠ 0 → path ≠ 0 → mode = 0 →
      FSOpenFileExAsync env client block path mode unk1 unk2 unk3 fileHandle errorMask
          asyncData t
        = (FSStatus.FatalError,
           t ++ [Event.prepareAsync (env.fsClientGetBody client) (env.fsCmdBlockGetBody block)
                   errorMask asyncData FSStatus.OK,
                 Event.handleFatalError (env.fsClientGetBody client)
                   FSAStatus.InvalidParam])) := by
  refine ⟨?_, ?_, ?_⟩
  · intro hfh
    unfold FSOpenFileExAsync
    simp only [fsCmdBlockPrepareAsync, fsClientHandleFatalError, hprep, ne_eq,
      not_true_eq_false, if_false, if_pos hfh, List.append_assoc, List.singleton_append]
  · intro hfh hpath
    unfold FSOpenFileExAsync
    simp only [fsCmdBlockPrepareAsync, fsClientHandleFatalError, hprep, ne_eq,
      not_true_eq_false, if_false, if_neg hfh, if_pos hpath, List.append_assoc,
      List.singleton_append]
  · intro hfh hpath hmode
    unfold FSOpenFileExAsync
    simp only [fsCmdBlockPrepareAsync, fsClientHandleFatalError, hprep, ne_eq,
      not_true_eq_false, if_false, if_neg hfh, if_neg hpath, if_pos hmode, List.append_assoc,
      List.singleton_append]

/-- Witness for C6: `path` null with `fileHandle = 5` and `mode = 6` non-null
hands `InvalidPath` to the fatal-error handler. -/
theorem FSOpenFileExAsync_validation_order_witness :
    stubEnv.prepareAsyncResult [] (stubEnv.fsClientGetBody 1) (stubEnv.fsCmdBlockGetBody 2) 0 9
      = FSStatus.OK ∧
    (5 : Nat) ≠ 0 ∧
    FSOpenFileExAsync stubEnv 1 2 0 6 0x660 0 0 5 0 9 []
      = (FSStatus.FatalError,
         [Event.prepareAsync 1 2 0 9 FSStatus.OK,
          Event.handleFatalError 1 FSAStatus.InvalidPath]) :=
  ⟨rfl, by decide,
   (FSOpenFileExAsync_validation_order stubEnv 1 2 0 6 0x660 0 0 5 0 9 [] rfl).2.1
     (by decide) rfl⟩

/-! ## C7: the capacity check of `FSGetCwdAsync` -/

/-- C7. After a successful prepare-async `FSGetCwdAsync` reports a null
destination first, as `InvalidBuffer`; with a non-null destination and
`bytes < FSMaxPathLength` it hands `InvalidParam` to the fatal-error handler and
returns `FatalError` without storing into the block, calling the shim builder or
submitting, whatever the environment; with a non-null destination and
`bytes ≥ FSMaxPathLength` it stores exactly `returnedPath` and `bytes` into the
`getCwd` binding, calls the shim builder, and no fatal error is raised. -/
theorem FSGetCwdAsync_capacity_check (env : Env) (client block returnedPath bytes errorMask
    asyncData : Nat) (t : Trace)
    (hprep : env.prepareAsyncResult t (env.fsClientGetBody client) (env.fsCmdBlockGetBody block)
      errorMask asyncData = FSStatus.OK) :
    (returnedPath = 0 →
      FSGetCwdAsync env client block returnedPath bytes errorMask asyncData t
        = (FSStatus.FatalError,
           t ++ [Event.prepareAsync (env.fsClientGetBody client) (env.fsCmdBlockGetBody block)
                   errorMask asyncData FSStatus.OK,
                 Event.handleFatalError (env.fsClientGetBody client)
                   FSAStatus.InvalidBuffer])) ∧
    (returnedPath ≠ 0 → bytes < env.FSMaxPathLength →
      FSGetCwdAsync env client block returnedPath bytes errorMask asyncData t
        = (FSStatus.FatalError,
           t ++ [Event.prepareAsync (env.fsClientGetBody client) (env.fsCmdBlockGetBody block)
                   errorMask asyncData FSStatus.OK,
                 Event.handleFatalError (env.fsClientGetBody client)
                   FSAStatus.InvalidParam])) ∧
    (returnedPath ≠ 0 → env.FSMaxPathLength ≤ bytes →
      ∃ error last,
        newEvents t (FSGetCwdAsync env client block returnedPath bytes errorMask asyncData t)
          = [Event.prepareAsync (env.fsClientGetBody client) (env.fsCmdBlockGetBody block)
               errorMask asyncData FSStatus.OK,
             Event.store (env.fsCmdBlockGetBody block) CmdDataField.getCwd_returnedPath
               returnedPath,
             Event.store (env.fsCmdBlockGetBody block) CmdDataField.getCwd_bytes bytes,
             Event.shimPrepareRequest (env.fsCmdBlockGetBody block)
               (FSAShimRequest.getCwd (env.clientHandle (env.fsClientGetBody client))) error,
             last] ∧
        isFatal last = false) := by
  refine ⟨?_, ?_, ?_⟩
  · intro hdst
    unfold FSGetCwdAsync
    simp only [fsCmdBlockPrepareAsync, fsClientHandleFatalError, hprep, ne_eq,
      not_true_eq_false, if_false, if_pos hdst, List.append_assoc, List.singleton_append]
  · intro hdst hcap
    unfold FSGetCwdAsync
    simp only [fsCmdBlockPrepareAsync, fsClientHandleFatalError, hprep, ne_eq,
      not_true_eq_false, if_false, if_neg hdst, if_pos hcap, List.append_assoc,
      List.singleton_append]
  · intro hdst hcap
    unfold FSGetCwdAsync
    simp only [fsCmdBlockPrepareAsync, fsClientHandleFatalError, storeCmdData,
      fsaShimPrepareRequest, fsClientHandleShimPrepareError, fsClientSubmitCommand, hprep,
      ne_eq, not_true_eq_false, if_false, if_neg hdst, if_neg (Nat.not_lt.mpr hcap)]
    split_ifs <;> simp only [newEvents, List.append_assoc, List.singleton_append,
      List.drop_left] <;> exact ⟨_, _, rfl, rfl⟩

/-- Witness for C7: capacity `FSMaxPathLength - 1` (here `0x27E`) with a
non-null destination is rejected with `InvalidParam`. -/
theorem FSGetCwdAsync_capacity_check_witness :
    stubEnv.prepareAsyncResult [] (stubEnv.fsClientGetBody 1) (stubEnv.fsCmdBlockGetBody 2) 0 9
      = FSStatus.OK ∧
    (8 : Nat) ≠ 0 ∧ stubEnv.FSMaxPathLength - 1 = 0x27E ∧
    FSGetCwdAsync stubEnv 1 2 8 0x27E 0 9 []
      = (FSStatus.FatalError,
         [Event.prepareAsync 1 2 0 9 FSStatus.OK,
          Event.handleFatalError 1 FSAStatus.InvalidParam]) :=
  ⟨rfl, by decide, rfl,
   (FSGetCwdAsync_capacity_check stubEnv 1 2 8 0x27E 0 9 [] rfl).2.1 (by decide) (by decide)⟩

/-! ## C8: a failed prepare-async -/

/-- C8. For every asynchronous operation (`FSChangeDirAsync`, `FSCloseFileAsync`,
`FSGetCwdAsync`, `FSGetPosFileAsync`, `FSOpenFileExAsync`, `FSReadFileAsync`,
`FSReadFileWithPosAsync`, `FSRemoveAsync`, `FSSetPosFileAsync`) and all
arguments, valid or not: if prepare-async returns a status `s` other than `OK`,
the operation returns `s` and the only thing it did is that call of
prepare-async: no fatal-error handler, no store into the block, no shim builder,
no submit. -/
theorem prepare_failure_returns_status (env : Env) (client block : Nat) (call : AsyncCall)
    (errorMask asyncData : Nat) (t : Trace) (s : FSStatus)
    (hs : env.prepareAsyncResult t (env.fsClientGetBody client) (env.fsCmdBlockGetBody block)
      errorMask asyncData = s)
    (hne : s ≠ FSStatus.OK) :
    call.run env client block errorMask asyncData t
      = (s, t ++ [Event.prepareAsync (env.fsClientGetBody client) (env.fsCmdBlockGetBody block)
                    errorMask asyncData s]) := by
  rw [run_eq_asyncSequence]
  unfold asyncSequence
  simp only [hs, ne_eq, hne, not_false_eq_true, if_true]

/-- Witness for C8: prepare-async failing with `FatalError`; `FSOpenFileExAsync`
with every pointer null and `FSReadFileAsync` with an overflowing
`size * count` both return `FatalError` after the prepare-async call alone. -/
theorem prepare_failure_returns_status_witness :
    latchedEnv.prepareAsyncResult [] (latchedEnv.fsClientGetBody 1)
      (latchedEnv.fsCmdBlockGetBody 2) 0 9 = FSStatus.FatalError ∧
    FSStatus.FatalError ≠ FSStatus.OK ∧
    (AsyncCall.openFileEx 0 0 0x660 0 0 0).run latchedEnv 1 2 0 9 []
      = (FSStatus.FatalError, [Event.prepareAsync 1 2 0 9 FSStatus.FatalError]) ∧
    (AsyncCall.readFile 3 0x10000 0x10000 7 0).run latchedEnv 1 2 0 9 []
      = (FSStatus.FatalError, [Event.prepareAsync 1 2 0 9 FSStatus.FatalError]) :=
  ⟨rfl, by decide,
   prepare_failure_returns_status latchedEnv 1 2 (AsyncCall.openFileEx 0 0 0x660 0 0 0) 0 9 []
     FSStatus.FatalError rfl (by decide),
   prepare_failure_returns_status latchedEnv 1 2 (AsyncCall.readFile 3 0x10000 0x10000 7 0) 0 9 []
     FSStatus.FatalError rfl (by decide)⟩

/-! ## C9: a failed shim builder -/

/-- C9. For every asynchronous operation: when prepare-async succeeded and no
validation raised a fatal error, the shim builder is called; and whenever the
shim builder call returned a non-zero error `error`, the operation ends with
that call followed by `fsClientHandleShimPrepareError(clientBody, error)`, it
returns exactly what that handler returned, and it neither submitted nor called
the fatal-error handler. -/
theorem shim_prepare_error_is_returned (env : Env) (client block : Nat) (call : AsyncCall)
    (errorMask asyncData : Nat) (t : Trace) :
    (env.prepareAsyncResult t (env.fsClientGetBody client) (env.fsCmdBlockGetBody block)
        errorMask asyncData = FSStatus.OK →
      (∀ x ∈ call.events env client block errorMask asyncData t, isFatal x = false) →
      ∃ request error, Event.shimPrepareRequest (env.fsCmdBlockGetBody block) request error
        ∈ call.events env client block errorMask asyncData t) ∧
    (∀ blockBody request error,
      Event.shimPrepareRequest blockBody request error
        ∈ call.events env client block errorMask asyncData t →
      error ≠ 0 →
      ∃ pre,
        call.events env client block errorMask asyncData t
          = pre ++ [Event.shimPrepareRequest (env.fsCmdBlockGetBody block) request error,
                    Event.handleShimPrepareError (env.fsClientGetBody client) error
                      (call.status env client block errorMask asyncData t)] ∧
        call.status env client block errorMask asyncData t
          = env.shimPrepareErrorResult
              (t ++ pre ++ [Event.shimPrepareRequest (env.fsCmdBlockGetBody block) request error])
              (env.fsClientGetBody client) error ∧
        ∀ x ∈ call.events env client block errorMask asyncData t,
          isSubmit x = false ∧ isFatal x = false) := by
  unfold AsyncCall.events AsyncCall.status
  rw [run_eq_asyncSequence]
  rcases asyncSequence_cases env client block call errorMask asyncData t with
    ⟨s, hs, hp, h1, hev⟩ | ⟨status, hp, hf, h1, hev⟩ | ⟨e, he, hp, hf, h1, hev⟩ |
    ⟨hp, hf, h1, hev⟩
  · rw [hev]
    refine ⟨fun hprep _ => absurd (hp.symm.trans hprep) hs, ?_⟩
    intro blockBody request error hmem _
    simp at hmem
  · rw [hev]
    refine ⟨fun _ hno => ?_, ?_⟩
    · have := hno (Event.handleFatalError (env.fsClientGetBody client) status) (by simp)
      simp [isFatal] at this
    · intro blockBody request error hmem _
      simp at hmem
  · rw [hev]
    refine ⟨fun _ _ => ⟨call.request env (env.clientHandle (env.fsClientGetBody client)), e,
      by simp⟩, ?_⟩
    intro blockBody request error hmem hne
    simp at hmem
    obtain ⟨rfl, rfl, rfl⟩ := hmem
    refine ⟨_, rfl, ?_, ?_⟩
    · rw [h1]
    · intro x hx
      simp at hx
      rcases hx with rfl | ⟨a, b, _, rfl⟩ | rfl | rfl <;> simp [isSubmit, isFatal]
  · rw [hev]
    refine ⟨fun _ _ => ⟨call.request env (env.clientHandle (env.fsClientGetBody client)), 0,
      by simp⟩, ?_⟩
    intro blockBody request error hmem hne
    simp at hmem
    exact absurd hmem.2.2 hne


/-- Witness for C9: `FSChangeDirAsync` with a shim builder failing with `-5`
returns what the prepare-error handler made of `-5`. -/
theorem shim_prepare_error_is_returned_witness :
    Event.shimPrepareRequest 2 (FSAShimRequest.changeDir 100 8) (-5)
      ∈ (AsyncCall.changeDir 8).events shimFailEnv 1 2 0 9 [] ∧
    (-5 : Int) ≠ 0 ∧
    (AsyncCall.changeDir 8).status shimFailEnv 1 2 0 9 [] = FSStatus.other (-5) :=
  ⟨by decide, by decide,
   match (shim_prepare_error_is_returned shimFailEnv 1 2 (AsyncCall.changeDir 8) 0 9 []).2
      2 (FSAShimRequest.changeDir 100 8) (-5) (by decide) (by decide) with
   | ⟨_, _, hstatus, _⟩ => hstatus⟩

/-! ## C10: submit -/

/-- C10. For every asynchronous operation: every submit it performs installs
the finish hook of the operation (the read finish hook for `FSReadFileAsync` and
`FSReadFileWithPosAsync`, the generic one for every other operation); it submits
at most once; it does not submit when prepare-async returned a non-OK status,
a validation raised a fatal error or the shim builder returned a non-zero
error; and when none of these happened it submits exactly once, as its last
step, right after the shim builder returned `0`, and returns `OK`.  Conversely
the status is tied to the phase reached: an `OK` return means that the
operation ended with the shim builder returning `0` followed by submit, unless
`OK` is what `fsClientHandleShimPrepareError` returned for a non-zero shim
error; after a non-OK prepare-async the status is that status and nothing else
was done; after a fatal-error call the status is `FatalError` and only
prepare-async and that call were performed; after a non-zero shim error the
status is the one `fsClientHandleShimPrepareError` returned, as the last
step. -/
theorem submit_follows_shim_success (env : Env) (client block : Nat) (call : AsyncCall)
    (errorMask asyncData : Nat) (t : Trace) :
    (∀ x ∈ call.events env client block errorMask asyncData t, isSubmit x = true →
      x = Event.submitCommand (env.fsClientGetBody client) (env.fsCmdBlockGetBody block)
            call.finish) ∧
    (call.events env client block errorMask asyncData t).countP isSubmit ≤ 1 ∧
    ((∃ x ∈ call.events env client block errorMask asyncData t, isFailure x = true) →
      ∀ x ∈ call.events env client block errorMask asyncData t, isSubmit x = false) ∧
    ((∀ x ∈ call.events env client block errorMask asyncData t, isFailure x = false) →
      ∃ pre request,
        call.events env client block errorMask asyncData t
          = pre ++ [Event.shimPrepareRequest (env.fsCmdBlockGetBody block) request 0,
                    Event.submitCommand (env.fsClientGetBody client)
                      (env.fsCmdBlockGetBody block) call.finish] ∧
        (∀ x ∈ pre, isSubmit x = false) ∧
        (call.events env client block errorMask asyncData t).countP isSubmit = 1 ∧
        call.status env client block errorMask asyncData t = FSStatus.OK) ∧
    (call.finish = FinishFn.fsCmdBlockFinishReadCmdFn ↔
      (∃ buffer size count handle readFlags,
        call = AsyncCall.readFile buffer size count handle readFlags) ∨
      (∃ buffer size count pos handle readFlags,
        call = AsyncCall.readFileWithPos buffer size count pos handle readFlags)) ∧
    (call.finish = FinishFn.fsCmdBlockFinishCmdFn ∨
      call.finish = FinishFn.fsCmdBlockFinishReadCmdFn) ∧
    (call.status env client block errorMask asyncData t = FSStatus.OK →
      (∃ pre request,
        call.events env client block errorMask asyncData t
          = pre ++ [Event.shimPrepareRequest (env.fsCmdBlockGetBody block) request 0,
                    Event.submitCommand (env.fsClientGetBody client)
                      (env.fsCmdBlockGetBody block) call.finish]) ∨
      (∃ pre error, error ≠ 0 ∧
        call.events env client block errorMask asyncData t
          = pre ++ [Event.handleShimPrepareError (env.fsClientGetBody client) error
                      FSStatus.OK])) ∧
    (∀ clientBody blockBody mask data s,
      Event.prepareAsync clientBody blockBody mask data s
        ∈ call.events env client block errorMask asyncData t →
      s ≠ FSStatus.OK →
      call.status env client block errorMask asyncData t = s ∧
      call.events env client block errorMask asyncData t
        = [Event.prepareAsync (env.fsClientGetBody client) (env.fsCmdBlockGetBody block)
             errorMask asyncData s]) ∧
    (∀ clientBody fsaStatus,
      Event.handleFatalError clientBody fsaStatus
        ∈ call.events env client block errorMask asyncData t →
      call.status env client block errorMask asyncData t = FSStatus.FatalError ∧
      call.events env client block errorMask asyncData t
        = [Event.prepareAsync (env.fsClientGetBody client) (env.fsCmdBlockGetBody block)
             errorMask asyncData FSStatus.OK,
           Event.handleFatalError (env.fsClientGetBody client) fsaStatus]) ∧
    (∀ blockBody request error,
      Event.shimPrepareRequest blockBody request error
        ∈ call.events env client block errorMask asyncData t →
      error ≠ 0 →
      ∃ pre,
        call.events env client block errorMask asyncData t
          = pre ++ [Event.shimPrepareRequest (env.fsCmdBlockGetBody block) request error,
                    Event.handleShimPrepareError (env.fsClientGetBody client) error
                      (call.status env client block errorMask asyncData t)]) := by
  have hstores : ∀ x ∈ (call.bindings env).map
      (fun b => Event.store (env.fsCmdBlockGetBody block) b.1 b.2),
      isSubmit x = false ∧ isFailure x = false := by
    intro x hx
    simp at hx
    obtain ⟨a, b, _, rfl⟩ := hx
    exact ⟨rfl, rfl⟩
  have hcount : ((call.bindings env).map
      (fun b => Event.store (env.fsCmdBlockGetBody block) b.1 b.2)).countP isSubmit = 0 := by
    rw [List.countP_eq_zero]
    intro x hx
    simp [(hstores x hx).1]
  refine ⟨?_, ?_, ?_, ?_, ?_, ?_, ?_, ?_, ?_, ?_⟩
  · unfold AsyncCall.events
    rw [run_eq_asyncSequence]
    intro x hx hsub
    rcases asyncSequence_cases env client block call errorMask asyncData t with
      ⟨s, hs, hp, h1, hev⟩ | ⟨status, hp, hf, h1, hev⟩ | ⟨e, he, hp, hf, h1, hev⟩ |
      ⟨hp, hf, h1, hev⟩ <;> rw [hev] at hx <;> simp at hx
    · subst hx
      simp [isSubmit] at hsub
    · rcases hx with rfl | rfl <;> simp [isSubmit] at hsub
    · rcases hx with rfl | ⟨a, b, _, rfl⟩ | rfl | rfl <;> simp [isSubmit] at hsub
    · rcases hx with rfl | ⟨a, b, _, rfl⟩ | rfl | rfl
      · simp [isSubmit] at hsub
      · simp [isSubmit] at hsub
      · simp [isSubmit] at hsub
      · rfl
  · unfold AsyncCall.events
    rw [run_eq_asyncSequence]
    rcases asyncSequence_cases env client block call errorMask asyncData t with
      ⟨s, hs, hp, h1, hev⟩ | ⟨status, hp, hf, h1, hev⟩ | ⟨e, he, hp, hf, h1, hev⟩ |
      ⟨hp, hf, h1, hev⟩ <;> rw [hev] <;>
      simp [List.countP_append, List.countP_cons, hcount, isSubmit]
  · unfold AsyncCall.events
    rw [run_eq_asyncSequence]
    rintro ⟨y, hy, hfail⟩ x hx
    rcases asyncSequence_cases env client block call errorMask asyncData t with
      ⟨s, hs, hp, h1, hev⟩ | ⟨status, hp, hf, h1, hev⟩ | ⟨e, he, hp, hf, h1, hev⟩ |
      ⟨hp, hf, h1, hev⟩ <;> rw [hev] at hx hy <;> simp at hx hy
    · subst hx
      rfl
    · rcases hx with rfl | rfl <;> rfl
    · rcases hx with rfl | ⟨a, b, _, rfl⟩ | rfl | rfl <;> rfl
    · rcases hy with rfl | ⟨a, b, _, rfl⟩ | rfl | rfl <;> simp [isFailure] at hfail
  · unfold AsyncCall.events AsyncCall.status
    rw [run_eq_asyncSequence]
    intro hno
    rcases asyncSequence_cases env client block call errorMask asyncData t with
      ⟨s, hs, hp, h1, hev⟩ | ⟨status, hp, hf, h1, hev⟩ | ⟨e, he, hp, hf, h1, hev⟩ |
      ⟨hp, hf, h1, hev⟩ <;> rw [hev] at hno
    · have := hno _ (List.mem_singleton.mpr rfl)
      simp [isFailure, hs] at this
    · have := hno (Event.handleFatalError (env.fsClientGetBody client) status) (by simp)
      simp [isFailure] at this
    · have := hno (Event.shimPrepareRequest (env.fsCmdBlockGetBody block)
        (call.request env (env.clientHandle (env.fsClientGetBody client))) e) (by simp)
      simp [isFailure, he] at this
    · refine ⟨_, _, hev, ?_, ?_, h1⟩
      · intro x hx
        simp at hx
        rcases hx with rfl | ⟨a, b, _, rfl⟩ <;> rfl
      · rw [hev]
        simp [List.countP_append, List.countP_cons, hcount, isSubmit]
  · cases call <;> simp [AsyncCall.finish]
  · cases call <;> simp [AsyncCall.finish]
  · unfold AsyncCall.events AsyncCall.status
    rw [run_eq_asyncSequence]
    intro hok
    rcases asyncSequence_cases env client block call errorMask asyncData t with
      ⟨s, hs, hp, h1, hev⟩ | ⟨status, hp, hf, h1, hev⟩ | ⟨e, he, hp, hf, h1, hev⟩ |
      ⟨hp, hf, h1, hev⟩
    · exact absurd (h1.symm.trans hok) hs
    · rw [h1] at hok
      exact absurd hok (by decide)
    · right
      refine ⟨[Event.prepareAsync (env.fsClientGetBody client) (env.fsCmdBlockGetBody block)
            errorMask asyncData FSStatus.OK]
          ++ (call.bindings env).map
              (fun b => Event.store (env.fsCmdBlockGetBody block) b.1 b.2)
          ++ [Event.shimPrepareRequest (env.fsCmdBlockGetBody block)
              (call.request env (env.clientHandle (env.fsClientGetBody client))) e],
        e, he, ?_⟩
      rw [hev, hok]
      simp
    · left
      exact ⟨_, _, hev⟩
  · unfold AsyncCall.events AsyncCall.status
    rw [run_eq_asyncSequence]
    intro clientBody blockBody mask data s hmem hne
    rcases asyncSequence_cases env client block call errorMask asyncData t with
      ⟨s2, hs, hp, h1, hev⟩ | ⟨status, hp, hf, h1, hev⟩ | ⟨e, he, hp, hf, h1, hev⟩ |
      ⟨hp, hf, h1, hev⟩ <;> rw [hev] at hmem ⊢ <;> simp at hmem
    · obtain ⟨rfl, rfl, rfl, rfl, rfl⟩ := hmem
      exact ⟨h1, rfl⟩
    · exact absurd hmem.2.2.2.2 hne
    · exact absurd hmem.2.2.2.2 hne
    · exact absurd hmem.2.2.2.2 hne
  · unfold AsyncCall.events AsyncCall.status
    rw [run_eq_asyncSequence]
    intro clientBody fsaStatus hmem
    rcases asyncSequence_cases env client block call errorMask asyncData t with
      ⟨s2, hs, hp, h1, hev⟩ | ⟨status, hp, hf, h1, hev⟩ | ⟨e, he, hp, hf, h1, hev⟩ |
      ⟨hp, hf, h1, hev⟩ <;> rw [hev] at hmem ⊢ <;> simp at hmem
    obtain ⟨rfl, rfl⟩ := hmem
    exact ⟨h1, rfl⟩
  · unfold AsyncCall.events AsyncCall.status
    rw [run_eq_asyncSequence]
    intro blockBody request error hmem hne
    rcases asyncSequence_cases env client block call errorMask asyncData t with
      ⟨s2, hs, hp, h1, hev⟩ | ⟨status, hp, hf, h1, hev⟩ | ⟨e, he, hp, hf, h1, hev⟩ |
      ⟨hp, hf, h1, hev⟩ <;> rw [hev] at hmem <;> simp at hmem
    · obtain ⟨rfl, rfl, rfl⟩ := hmem
      exact ⟨_, hev⟩
    · exact absurd hmem.2.2 hne

/-- Witness for C10: `FSSetPosFileAsync` and `FSReadFileAsync` in an
environment where nothing fails return `OK`; `FSRemoveAsync` with a null path
returns `FatalError`; `FSCloseFileAsync` on a client whose prepare-async fails
with `FatalError` returns `FatalError`. -/
theorem submit_follows_shim_success_witness :
    (AsyncCall.setPosFile 7 5).status stubEnv 1 2 0 9 [] = FSStatus.OK ∧
    (AsyncCall.readFile 3 4 1 7 0).status stubEnv 1 2 0 9 [] = FSStatus.OK ∧
    (AsyncCall.remove 0).status stubEnv 1 2 0 9 [] = FSStatus.FatalError ∧
    (AsyncCall.closeFile 7).status latchedEnv 1 2 0 9 [] = FSStatus.FatalError :=
  ⟨match (submit_follows_shim_success stubEnv 1 2 (AsyncCall.setPosFile 7 5) 0 9 []).2.2.2.1
      (by decide) with
   | ⟨_, _, _, _, _, hstatus⟩ => hstatus,
   match (submit_follows_shim_success stubEnv 1 2 (AsyncCall.readFile 3 4 1 7 0) 0 9 []).2.2.2.1
      (by decide) with
   | ⟨_, _, _, _, _, hstatus⟩ => hstatus,
   ((submit_follows_shim_success stubEnv 1 2 (AsyncCall.remove 0) 0 9 []).2.2.2.2.2.2.2.2.1
      1 FSAStatus.InvalidPath (by decide)).1,
   ((submit_follows_shim_success latchedEnv 1 2 (AsyncCall.closeFile 7) 0 9 []).2.2.2.2.2.2.2.1
      1 2 0 9 FSStatus.FatalError (by decide) (by decide)).1⟩

/-! ## C11: the progress record of a read -/

/-- C11. For every read whose prepare-async succeeds and whose product
`size * count` fits in 32 bits (the overflow guard passes), through
`internal::readFileWithPosAsync`, `FSReadFileAsync` or `FSReadFileWithPosAsync`:
after prepare-async the entry stores, in this order and before the shim builder
is called, `chunkSize = size`, `bytesRemaining = size * count` (the exact
product: the 32-bit multiplication does not wrap), `bytesRead = 0` and
`readSize = min(size, FSMaxBytesPerRequest)`; it then calls the shim read
builder with size `readSize` and count `1`; one more step follows, which is not
a fatal error. -/
theorem read_progress_record (env : Env) (client block buffer size count pos handle
    readFlags errorMask asyncData : Nat) (t : Trace)
    (hprep : env.prepareAsyncResult t (env.fsClientGetBody client) (env.fsCmdBlockGetBody block)
      errorMask asyncData = FSStatus.OK)
    (hfits : size * count ≤ 2 ^ 32 - 1) :
    (size * count) % 2 ^ 32 = size * count ∧
    (∃ error last,
      newEvents t (readFileWithPosAsync env client block buffer size count pos handle
          readFlags errorMask asyncData t)
        = [Event.prepareAsync (env.fsClientGetBody client) (env.fsCmdBlockGetBody block)
             errorMask asyncData FSStatus.OK,
           Event.store (env.fsCmdBlockGetBody block) CmdDataField.readFile_chunkSize size,
           Event.store (env.fsCmdBlockGetBody block) CmdDataField.readFile_bytesRemaining
             (size * count),
           Event.store (env.fsCmdBlockGetBody block) CmdDataField.readFile_bytesRead 0,
           Event.store (env.fsCmdBlockGetBody block) CmdDataField.readFile_readSize
             (min size env.FSMaxBytesPerRequest),
           Event.shimPrepareRequest (env.fsCmdBlockGetBody block)
             (FSAShimRequest.readFile (env.clientHandle (env.fsClientGetBody client)) buffer
               (min size env.FSMaxBytesPerRequest) 1 pos handle readFlags) error,
           last] ∧
      isFatal last = false) ∧
    (∃ error last,
      newEvents t (FSReadFileAsync env client block buffer size count handle readFlags
          errorMask asyncData t)
        = [Event.prepareAsync (env.fsClientGetBody client) (env.fsCmdBlockGetBody block)
             errorMask asyncData FSStatus.OK,
           Event.store (env.fsCmdBlockGetBody block) CmdDataField.readFile_chunkSize size,
           Event.store (env.fsCmdBlockGetBody block) CmdDataField.readFile_bytesRemaining
             (size * count),
           Event.store (env.fsCmdBlockGetBody block) CmdDataField.readFile_bytesRead 0,
           Event.store (env.fsCmdBlockGetBody block) CmdDataField.readFile_readSize
             (min size env.FSMaxBytesPerRequest),
           Event.shimPrepareRequest (env.fsCmdBlockGetBody block)
             (FSAShimRequest.readFile (env.clientHandle (env.fsClientGetBody client)) buffer
               (min size env.FSMaxBytesPerRequest) 1 0 handle 
               (readFlags &&& notReadWithPos env)) error,
           last] ∧
      isFatal last = false) ∧
    (∃ error last,
      newEvents t (FSReadFileWithPosAsync env client block buffer size count pos handle
          readFlags errorMask asyncData t)
        = [Event.prepareAsync (env.fsClientGetBody client) (env.fsCmdBlockGetBody block)
             errorMask asyncData FSStatus.OK,
           Event.store (env.fsCmdBlockGetBody block) CmdDataField.readFile_chunkSize size,
           Event.store (env.fsCmdBlockGetBody block) CmdDataField.readFile_bytesRemaining
             (size * count),
           Event.store (env.fsCmdBlockGetBody block) CmdDataField.readFile_bytesRead 0,
           Event.store (env.fsCmdBlockGetBody block) CmdDataField.readFile_readSize
             (min size env.FSMaxBytesPerRequest),
           Event.shimPrepareRequest (env.fsCmdBlockGetBody block)
             (FSAShimRequest.readFile (env.clientHandle (env.fsClientGetBody client)) buffer
               (min size env.FSMaxBytesPerRequest) 1 0 handle 
               (readFlags ||| env.ReadWithPos)) error,
           last] ∧
      isFatal last = false) :=
  ⟨Nat.mod_eq_of_lt (by omega),
   readFileWithPosAsync_fits env client block buffer size count pos handle readFlags errorMask
     asyncData t hprep hfits,
   readFileWithPosAsync_fits env client block buffer size count 0 handle
     (readFlags &&& notReadWithPos env) errorMask asyncData t hprep hfits,
   readFileWithPosAsync_fits env client block buffer size count 0 handle
     (readFlags ||| env.ReadWithPos) errorMask asyncData t hprep hfits⟩

/-- Witness for C11: `size = 0x20000`, `count = 2` with
`FSMaxBytesPerRequest = 0x10000`: the record stored is `chunkSize = 0x20000`,
`bytesRemaining = 0x40000`, `bytesRead = 0`, `readSize = 0x10000`, and two more
events follow it. -/
theorem read_progress_record_witness :
    stubEnv.prepareAsyncResult [] (stubEnv.fsClientGetBody 1) (stubEnv.fsCmdBlockGetBody 2) 0 9
      = FSStatus.OK ∧
    0x20000 * 2 ≤ 2 ^ 32 - 1 ∧
    (newEvents [] (readFileWithPosAsync stubEnv 1 2 3 0x20000 2 0 7 0 0 9 [])).take 5
      = [Event.prepareAsync 1 2 0 9 FSStatus.OK,
         Event.store 2 CmdDataField.readFile_chunkSize 0x20000,
         Event.store 2 CmdDataField.readFile_bytesRemaining 0x40000,
         Event.store 2 CmdDataField.readFile_bytesRead 0,
         Event.store 2 CmdDataField.readFile_readSize 0x10000] ∧
    (newEvents [] (readFileWithPosAsync stubEnv 1 2 3 0x20000 2 0 7 0 0 9 [])).length = 7 := by
  obtain ⟨error, last, hev, _⟩ :=
    (read_progress_record stubEnv 1 2 3 0x20000 2 0 7 0 0 9 [] rfl (by decide)).2.1
  refine ⟨rfl, by decide, ?_, ?_⟩
  · rw [hev]
    rfl
  · rw [hev]
    rfl

end coreinit
